import Mathlib

/-!
# Registry client: envelope decoding and error taxonomy

A shallow embedding of the Go package `registry` (the omniview plugin registry
client).  Go values are modelled as follows.

* `[]byte` and `string` are both `String`.
* A nil-able Go value (`error`, a pointer, a slice, an `io.Reader`,
  `json.RawMessage`) is an `Option`; `none` is Go's `nil`.
* `int`, `int32` and `int64` are `Int` (no arithmetic is performed on them).
* Mutation through a pointer argument (`dst`) is explicit state passing: the
  function returns the new value of the pointee.
* The Go standard library (`net/http`, `encoding/json`, `os`, `crypto/sha256`)
  is not part of the package; the pieces the package calls are parameters,
  collected in `HTTP` and `JSON`.
-/

namespace Registry

/-! ## errors.go -/

/-- The package-level sentinel errors created with `errors.New`. -/
inductive Sentinel where
  | ErrUnsignedArtifact
  | ErrInvalidSignature
  | ErrNoPlatformArtifact
  | ErrChecksumMismatch
  | ErrEmptyVersion
  deriving DecidableEq, Repr

/-- The struct `APIError`: an error response from the API. -/
structure APIError where
  StatusCode : Int
  Message : String
  deriving DecidableEq, Repr

/-- A non-nil Go `error` value, as a tree: `*APIError`, a package sentinel, an
error produced by a library (`net/http`, `encoding/json`, `os`, ...), a
`fmt.Errorf` with one `%w` verb, and `errors.Join` of two errors. -/
inductive GoError where
  | api (e : APIError)
  | sentinel (s : Sentinel)
  | foreign (msg : String)
  | wrap (context : String) (inner : GoError)
  | join (first second : GoError)
  deriving DecidableEq, Repr

/-- The standard `errors.As(err, &apiErr)` for the target type `*APIError`:
depth-first search of the error tree, the error itself first, then what it
unwraps to; `errors.Join` is searched in argument order. -/
def errorsAs : GoError → Option APIError
  | .api e => some e
  | .sentinel _ => none
  | .foreign _ => none
  | .wrap _ inner => errorsAs inner
  | .join first second =>
    match errorsAs first with
    | some e => some e
    | none => errorsAs second

/-- The standard `errors.Is(err, target)` for a sentinel target. -/
def errorsIs : GoError → Sentinel → Bool
  | .api _, _ => false
  | .sentinel s, t => decide (s = t)
  | .foreign _, _ => false
  | .wrap _ inner, t => errorsIs inner t
  | .join first second, t => errorsIs first t || errorsIs second t

/-- The function `IsNotFound` of errors.go: true if the error is a 404 API error. -/
def IsNotFound (err : Option GoError) : Bool :=
  match err with
  | none => false
  | some e =>
    match errorsAs e with
    | some apiErr => decide (apiErr.StatusCode = 404)
    | none => false

/-- Every `*APIError` in an error tree, in depth-first order. -/
def apiErrors : GoError → List APIError
  | .api e => [e]
  | .sentinel _ => []
  | .foreign _ => []
  | .wrap _ inner => apiErrors inner
  | .join first second => apiErrors first ++ apiErrors second

/-! ## types_options.go: the envelope -/

/-- Pagination metadata from API responses. -/
structure Pagination where
  Page : Int
  PerPage : Int
  Total : Int
  TotalPages : Int
  deriving DecidableEq, Repr

/-- The struct `apiResponse`: the envelope used by the API.  `Data` is a
`json.RawMessage`; `none` is the nil slice left when the key is absent. -/
structure apiResponse where
  Success : Bool
  Data : Option String
  Message : String
  Pagination : Option Pagination
  deriving DecidableEq, Repr

/-! ## The libraries the client calls -/

/-- An `http.Request` as far as the client builds it. -/
structure Request where
  Method : String
  URL : String
  Header : List (String × String)
  Body : Option String
  deriving DecidableEq, Repr

/-- The call `req.Header.Set(key, value)`: replaces any value stored under the key. -/
def Request.setHeader (req : Request) (key value : String) : Request :=
  { req with Header := (req.Header.filter (fun kv => kv.1 != key)) ++ [(key, value)] }

/-- The call `resp.Header.Get(key)`: the value stored under the key, or the
empty string. -/
def headerGet (h : List (String × String)) (key : String) : String :=
  match h.find? (fun kv => kv.1 == key) with
  | some kv => kv.2
  | none => ""

/-- An `http.Response`: status, headers, the bytes the body stream delivers,
and the error (if any) the stream ends with instead of EOF. -/
structure Response where
  StatusCode : Int
  Header : List (String × String)
  Body : String
  ReadErr : Option GoError
  deriving DecidableEq, Repr

/-- The part of `net/http` the client uses.  `NewRequest` is the validation of
`http.NewRequestWithContext(ctx, method, url, body)` (nil when the request can
be built), `Do` is `c.httpClient.Do`, and `DoNoFollow` is `Do` of the copy of
the client whose `CheckRedirect` returns `http.ErrUseLastResponse`. -/
structure HTTP where
  NewRequest : String → String → Option GoError
  Do : Request → Except GoError Response
  DoNoFollow : Request → Except GoError Response

/-- The part of `encoding/json` the client uses, for a destination type `D`.
`unmarshalEnvelope b` is `json.Unmarshal(b, &envelope)` on a zero envelope;
`unmarshalData raw d` is `json.Unmarshal(raw, dst)` with `*dst = d`, giving
the new `*dst` and the error.  An error of `json.Unmarshal` is one of the
library's own error types or comes from the unmarshaler of `time.Time`, the
only custom one among the destination types of the package; none of them is or
wraps an `*APIError`, so they are kept as their text and enter the error tree
as `GoError.foreign`. -/
structure JSON (D : Type) where
  unmarshalEnvelope : String → Except String apiResponse
  unmarshalData : String → D → D × Option String

/-- What the process has done to the outside: the requests handed to the
transport (oldest first) and the files on disk (path and content). -/
structure World where
  sent : List Request
  files : List (String × String)
  deriving DecidableEq, Repr

/-- Record a request handed to the transport. -/
def World.send (w : World) (req : Request) : World :=
  { w with sent := w.sent ++ [req] }

/-! ## client.go -/

/-- The struct `Client` (the `httpClient` field is the `HTTP` parameter). -/
structure Client where
  baseURL : String
  token : String
  deriving DecidableEq, Repr

/-- What a call of `do` leaves behind: the world, the destination (`*dst`,
or `none` when `dst` was nil) and the returned error. -/
structure DoResult (D : Type) where
  world : World
  dst : Option D
  err : Option GoError

/-- The method `Client.do`: performs an HTTP request and decodes the API
envelope response. -/
def Client.do_ {D : Type} (c : Client) (T : HTTP) (J : JSON D) (w : World)
    (method path : String) (body : Option String) (dst : Option D) : DoResult D :=
  let url := c.baseURL ++ path
  match T.NewRequest method url with
  | some err => ⟨w, dst, some (.wrap "creating request" err)⟩
  | none =>
    let req : Request := ⟨method, url, [], body⟩
    let req := if body.isSome then req.setHeader "Content-Type" "application/json" else req
    let req := if c.token ≠ "" then req.setHeader "Authorization" ("Bearer " ++ c.token) else req
    let w := w.send req
    match T.Do req with
    | .error err => ⟨w, dst, some (.wrap "executing request" err)⟩
    | .ok resp =>
      match resp.ReadErr with
      | some err => ⟨w, dst, some (.wrap "reading response" err)⟩
      | none =>
        let respBody := resp.Body
        if resp.StatusCode ≥ 400 then
          match J.unmarshalEnvelope respBody with
          | .ok envelope =>
            if envelope.Message ≠ "" then
              ⟨w, dst, some (.api ⟨resp.StatusCode, envelope.Message⟩)⟩
            else
              ⟨w, dst, some (.api ⟨resp.StatusCode, respBody⟩)⟩
          | .error _ => ⟨w, dst, some (.api ⟨resp.StatusCode, respBody⟩)⟩
        else
          match dst with
          | none => ⟨w, none, none⟩
          | some d =>
            match J.unmarshalEnvelope respBody with
            | .error err => ⟨w, some d, some (.wrap "decoding response envelope" (.foreign err))⟩
            | .ok envelope =>
              if !envelope.Success then
                ⟨w, some d, some (.api ⟨resp.StatusCode, envelope.Message⟩)⟩
              else
                match envelope.Data with
                | some raw =>
                  match J.unmarshalData raw d with
                  | (d', some err) =>
                    ⟨w, some d', some (.wrap "decoding response data" (.foreign err))⟩
                  | (d', none) => ⟨w, some d', none⟩
                | none => ⟨w, some d, none⟩

/-- The method `Client.get`: a GET request decoded into `dst`. -/
def Client.get {D : Type} (c : Client) (T : HTTP) (J : JSON D) (w : World)
    (path : String) (dst : Option D) : DoResult D :=
  c.do_ T J w "GET" path none dst

/-- The method `Client.post`: a POST request with a JSON body, decoded into
`dst`.  `marshal` is `json.Marshal` on the body's type. -/
def Client.post {B D : Type} (c : Client) (T : HTTP) (J : JSON D) (w : World)
    (marshal : B → Except String String)
    (path : String) (body : Option B) (dst : Option D) : DoResult D :=
  match body with
  | some b =>
    match marshal b with
    | .error err => ⟨w, dst, some (.wrap "marshaling request body" (.foreign err))⟩
    | .ok data => c.do_ T J w "POST" path (some data) dst
  | none => c.do_ T J w "POST" path none dst

/-- What a call of `getList` leaves behind: the world, the destination
(`*dst`), and the returned pair `(*Pagination, error)`. -/
structure ListDoResult (D : Type) where
  world : World
  dst : D
  pag : Option Pagination
  err : Option GoError

/-- The method `Client.getList`: performs a GET and decodes a paginated list
response.  Every caller passes a non-nil `dst`. -/
def Client.getList {D : Type} (c : Client) (T : HTTP) (J : JSON D) (w : World)
    (path : String) (dst : D) : ListDoResult D :=
  let url := c.baseURL ++ path
  match T.NewRequest "GET" url with
  | some err => ⟨w, dst, none, some (.wrap "creating request" err)⟩
  | none =>
    let req : Request := ⟨"GET", url, [], none⟩
    let req := if c.token ≠ "" then req.setHeader "Authorization" ("Bearer " ++ c.token) else req
    let w := w.send req
    match T.Do req with
    | .error err => ⟨w, dst, none, some (.wrap "executing request" err)⟩
    | .ok resp =>
      match resp.ReadErr with
      | some err => ⟨w, dst, none, some (.wrap "reading response" err)⟩
      | none =>
        let respBody := resp.Body
        if resp.StatusCode ≥ 400 then
          match J.unmarshalEnvelope respBody with
          | .ok envelope =>
            if envelope.Message ≠ "" then
              ⟨w, dst, none, some (.api ⟨resp.StatusCode, envelope.Message⟩)⟩
            else
              ⟨w, dst, none, some (.api ⟨resp.StatusCode, respBody⟩)⟩
          | .error _ => ⟨w, dst, none, some (.api ⟨resp.StatusCode, respBody⟩)⟩
        else
          match J.unmarshalEnvelope respBody with
          | .error err =>
            ⟨w, dst, none, some (.wrap "decoding response envelope" (.foreign err))⟩
          | .ok envelope =>
            if !envelope.Success then
              ⟨w, dst, none, some (.api ⟨resp.StatusCode, envelope.Message⟩)⟩
            else
              match envelope.Data with
              | some raw =>
                match J.unmarshalData raw dst with
                | (d', some err) =>
                  ⟨w, d', none, some (.wrap "decoding response data" (.foreign err))⟩
                | (d', none) => ⟨w, d', envelope.Pagination, none⟩
              | none => ⟨w, dst, envelope.Pagination, none⟩

/-! ## types.go -/

/-- Go's `time.Time`, kept as its RFC 3339 text. -/
abbrev Time := String

/-- The struct `PluginAuthor`. -/
structure PluginAuthor where
  Name : String
  Email : String
  URL : String

/-- The struct `Plugin`: a plugin in the registry. -/
structure Plugin where
  ID : String
  Name : String
  Description : String
  IconURL : String
  Category : String
  Tags : Option (List String)
  License : String
  Repository : String
  URL : String
  Readme : String
  Official : Bool
  Featured : Bool
  DownloadCount : Int
  AverageRating : Float
  ReviewCount : Int
  PublisherID : String
  Author : PluginAuthor
  CreatedAt : Time
  UpdatedAt : Time

/-- The zero value of `Plugin` (`var p Plugin`). -/
def Plugin.zero : Plugin :=
  ⟨"", "", "", "", "", none, "", "", "", "", false, false, 0, 0, 0, "", ⟨"", "", ""⟩, "", ""⟩

/-- The struct `Artifact`: a platform-specific build artifact. -/
structure Artifact where
  Checksum : String
  Signature : String
  DownloadURL : String
  Size : Int
  deriving DecidableEq, Repr

/-- The struct `PluginVersion`.  The map `Artifacts` is an association list
with one entry per key; `none` is the nil map. -/
structure PluginVersion where
  ID : String
  PluginID : String
  Version : String
  Description : String
  Changelog : String
  MinIDEVersion : String
  MaxIDEVersion : String
  Capabilities : Option (List String)
  Visible : Bool
  Artifacts : Option (List (String × Artifact))
  CreatedAt : Time
  UpdatedAt : Time
  deriving DecidableEq, Repr

/-- The zero value of `PluginVersion` (`var v PluginVersion`). -/
def PluginVersion.zero : PluginVersion :=
  ⟨"", "", "", "", "", "", "", none, false, none, "", ""⟩

/-- Indexing a Go map, `v, ok := m[key]`: exact key equality; a nil map has
no entries. -/
def mapIndex {V : Type} (m : Option (List (String × V))) (key : String) : Option V :=
  match m with
  | none => none
  | some entries => entries.lookup key

/-- The struct `Review`: a user review of a plugin. -/
structure Review where
  ID : String
  PluginID : String
  UserID : Nat
  Rating : Int
  Title : String
  Body : String
  Response : String
  ResponseAt : Option Time
  CreatedAt : Time
  UpdatedAt : Time
  deriving DecidableEq, Repr

/-- The zero value of `Review` (`var r Review`). -/
def Review.zero : Review := ⟨"", "", 0, 0, "", "", "", none, "", ""⟩

/-- The struct `CreateReviewInput`: the request body for creating a review. -/
structure CreateReviewInput where
  Rating : Int
  Title : String
  Body : String
  deriving DecidableEq, Repr

/-- The struct `DailyDownloads`: a single day's download count. -/
structure DailyDownloads where
  Date : String
  Count : Int
  deriving DecidableEq, Repr

/-- The struct `CategoryCount`: a category and its plugin count. -/
structure CategoryCount where
  Category : String
  Count : Int
  deriving DecidableEq, Repr

/-! ## types_options.go: list options -/

/-- The struct `ListOptions`. -/
structure ListOptions where
  Page : Int
  PerPage : Int
  OrderField : String
  OrderDirection : String
  Search : String
  Category : String
  Featured : Bool
  deriving DecidableEq, Repr

/-- The upper-case hexadecimal digit of a number below 16. -/
def upperhex (n : Nat) : Char :=
  "0123456789ABCDEF".toList.getD n '0'

/-- The test `shouldEscape(c, encodeQueryComponent)` of `net/url`: everything
but ASCII letters, digits and `-`, `_`, `.`, `~` is escaped. -/
def shouldEscape (b : UInt8) : Bool :=
  let n := b.toNat
  !((97 ≤ n && n ≤ 122) || (65 ≤ n && n ≤ 90) || (48 ≤ n && n ≤ 57) ||
    n == 45 || n == 95 || n == 46 || n == 126)

/-- The standard `url.QueryEscape`: byte by byte over the UTF-8 text, a space
becomes `+`, an escaped byte becomes `%XX`. -/
def QueryEscape (s : String) : String :=
  String.mk (s.toList.flatMap fun c => (String.utf8EncodeChar c).flatMap fun b =>
    if b.toNat = 32 then ['+']
    else if shouldEscape b then ['%', upperhex (b.toNat / 16), upperhex (b.toNat % 16)]
    else [Char.ofNat b.toNat])

/-- Lexicographic order on code-point lists. -/
def codesLE : List Nat → List Nat → Bool
  | [], _ => true
  | _ :: _, [] => false
  | a :: as, b :: bs => a < b || (a == b && codesLE as bs)

/-- Go's `<=` on strings (bytewise, which on UTF-8 is code point by code
point). -/
def stringLE (a b : String) : Bool :=
  codesLE (a.toList.map Char.toNat) (b.toList.map Char.toNat)

/-- A `url.Values` holding at most one value per key. -/
abbrev Values := List (String × String)

/-- The method `Values.Set`: replaces the values stored under the key. -/
def Values.Set (q : Values) (key value : String) : Values :=
  q.filter (fun kv => kv.1 != key) ++ [(key, value)]

/-- The method `Values.Encode`: `key=value` pairs, both escaped, sorted by
key and joined with `&`. -/
def Values.Encode (q : Values) : String :=
  "&".intercalate
    ((q.insertionSort (fun a b => stringLE a.1 b.1 = true)).map
      fun kv => QueryEscape kv.1 ++ "=" ++ QueryEscape kv.2)

/-- The method `ListOptions.buildQuery`; `none` is the nil receiver. -/
def ListOptions.buildQuery (o : Option ListOptions) : String :=
  match o with
  | none => ""
  | some o =>
    let q : Values := []
    let q := if o.Page > 0 then q.Set "page" (toString o.Page) else q
    let q := if o.PerPage > 0 then q.Set "per_page" (toString o.PerPage) else q
    let q := if o.OrderField ≠ "" then q.Set "order_field" o.OrderField else q
    let q := if o.OrderDirection ≠ "" then q.Set "order_direction" o.OrderDirection else q
    let q := if o.Search ≠ "" then q.Set "search" o.Search else q
    let q := if o.Category ≠ "" then q.Set "category" o.Category else q
    let q := if o.Featured then q.Set "featured" "true" else q
    let encoded := q.Encode
    if encoded = "" then "" else "?" ++ encoded

/-- The struct `ListResult[T]`: a generic paginated response.  `Items` is a
slice: `none` is the nil slice, `some []` an empty non-nil one. -/
structure ListResult (T : Type) where
  Items : Option (List T)
  Pagination : Option Pagination

/-- What a list operation leaves behind: the world and the returned pair
`(ListResult[T], error)`. -/
structure ListReturn (T : Type) where
  world : World
  result : ListResult T
  err : Option GoError

/-! ## plugins.go, versions.go, reviews.go, publishers.go -/

/-- What a single-object operation leaves behind: the world and the returned
pair `(*T, error)`, of which exactly one is non-nil. -/
structure GetReturn (T : Type) where
  world : World
  ret : Except GoError T

/-- The method `Client.ListPlugins`: a paginated list of plugins. -/
def Client.ListPlugins (c : Client) (H : HTTP) (J : JSON (Option (List Plugin))) (w : World)
    (opts : Option ListOptions) : ListReturn Plugin :=
  let path := "/v1/plugins" ++ ListOptions.buildQuery opts
  let items : Option (List Plugin) := none
  let r := c.getList H J w path items
  match r.err with
  | some err => ⟨r.world, ⟨none, none⟩, some err⟩
  | none =>
    let items := r.dst
    let items := if items.isNone then some [] else items
    ⟨r.world, ⟨items, r.pag⟩, none⟩

/-- The method `Client.GetPlugin`: a single plugin by ID. -/
def Client.GetPlugin (c : Client) (H : HTTP) (J : JSON Plugin) (w : World)
    (pluginID : String) : GetReturn Plugin :=
  let p := Plugin.zero
  let r := c.get H J w ("/v1/plugins/" ++ pluginID) (some p)
  match r.err with
  | some err => ⟨r.world, .error err⟩
  | none => ⟨r.world, .ok (r.dst.getD p)⟩

/-- What `ListCategories` and `GetDailyDownloads` leave behind: the world and
the returned pair `([]T, error)`; `none` is the nil slice. -/
structure SliceReturn (T : Type) where
  world : World
  items : Option (List T)
  err : Option GoError

/-- The method `Client.ListCategories`: all categories with plugin counts. -/
def Client.ListCategories (c : Client) (H : HTTP) (J : JSON (Option (List CategoryCount)))
    (w : World) : SliceReturn CategoryCount :=
  let cats : Option (List CategoryCount) := none
  let r := c.get H J w "/v1/categories" (some cats)
  match r.err with
  | some err => ⟨r.world, none, some err⟩
  | none => ⟨r.world, r.dst.getD cats, none⟩

/-- The method `Client.ListVersions`: a paginated list of versions for a plugin. -/
def Client.ListVersions (c : Client) (H : HTTP) (J : JSON (Option (List PluginVersion))) (w : World)
    (pluginID : String) (opts : Option ListOptions) : ListReturn PluginVersion :=
  let path := "/v1/plugins/" ++ pluginID ++ "/versions" ++ ListOptions.buildQuery opts
  let items : Option (List PluginVersion) := none
  let r := c.getList H J w path items
  match r.err with
  | some err => ⟨r.world, ⟨none, none⟩, some err⟩
  | none =>
    let items := r.dst
    let items := if items.isNone then some [] else items
    ⟨r.world, ⟨items, r.pag⟩, none⟩

/-- The method `Client.GetVersion`: a specific version of a plugin. -/
def Client.GetVersion (c : Client) (H : HTTP) (J : JSON PluginVersion) (w : World)
    (pluginID version : String) : GetReturn PluginVersion :=
  let v := PluginVersion.zero
  let r := c.get H J w ("/v1/plugins/" ++ pluginID ++ "/versions/" ++ version) (some v)
  match r.err with
  | some err => ⟨r.world, .error err⟩
  | none => ⟨r.world, .ok (r.dst.getD v)⟩

/-- The method `Client.ListReviews`: a paginated list of reviews for a plugin. -/
def Client.ListReviews (c : Client) (H : HTTP) (J : JSON (Option (List Review))) (w : World)
    (pluginID : String) (opts : Option ListOptions) : ListReturn Review :=
  let path := "/v1/plugins/" ++ pluginID ++ "/reviews" ++ ListOptions.buildQuery opts
  let items : Option (List Review) := none
  let r := c.getList H J w path items
  match r.err with
  | some err => ⟨r.world, ⟨none, none⟩, some err⟩
  | none =>
    let items := r.dst
    let items := if items.isNone then some [] else items
    ⟨r.world, ⟨items, r.pag⟩, none⟩

/-- The method `Client.CreateReview`: creates a review for a plugin.  `input`
is a `*CreateReviewInput`; stored in the `interface{}` parameter of `post` it
is a non-nil interface value even when the pointer is nil, so the body handed
to `post` is always `some`.  `marshal` is `json.Marshal` on the pointer. -/
def Client.CreateReview (c : Client) (H : HTTP) (J : JSON Review) (w : World)
    (marshal : Option CreateReviewInput → Except String String)
    (pluginID : String) (input : Option CreateReviewInput) : GetReturn Review :=
  let r0 := Review.zero
  let r := c.post H J w marshal ("/v1/plugins/" ++ pluginID ++ "/reviews") (some input) (some r0)
  match r.err with
  | some err => ⟨r.world, .error err⟩
  | none => ⟨r.world, .ok (r.dst.getD r0)⟩

/-- The method `Client.ListPublisherPlugins`: plugins for a publisher by slug. -/
def Client.ListPublisherPlugins (c : Client) (H : HTTP) (J : JSON (Option (List Plugin))) (w : World)
    (slug : String) (opts : Option ListOptions) : ListReturn Plugin :=
  let path := "/v1/publishers/" ++ slug ++ "/plugins" ++ ListOptions.buildQuery opts
  let items : Option (List Plugin) := none
  let r := c.getList H J w path items
  match r.err with
  | some err => ⟨r.world, ⟨none, none⟩, some err⟩
  | none =>
    let items := r.dst
    let items := if items.isNone then some [] else items
    ⟨r.world, ⟨items, r.pag⟩, none⟩

/-! ## platform.go -/

/-- The platform the process runs on and the operating-system and crypto
services `DownloadPlugin` uses.  `GOOS` and `GOARCH` are the constants of
package `runtime`; `CreateTemp pattern` is `os.CreateTemp("", pattern)`, giving
the name of the file it creates; `WriteErr path data` is the error (if any) of
writing `data` to the file; `sha256hex data` is
`hex.EncodeToString` of the SHA-256 of `data`. -/
structure Host where
  GOOS : String
  GOARCH : String
  CreateTemp : String → Except GoError String
  WriteErr : String → String → Option GoError
  sha256hex : String → String

/-- The variable `SupportedPlatforms`. -/
def SupportedPlatforms : List String :=
  ["darwin_arm64", "darwin_amd64", "linux_amd64", "linux_arm64", "windows_amd64"]

/-- The function `CurrentPlatform`: the platform string for the current OS and
architecture. -/
def CurrentPlatform (S : Host) : String :=
  S.GOOS ++ "_" ++ S.GOARCH

/-! ## downloads.go -/

/-- After `os.CreateTemp` succeeded: an empty file exists at `path`. -/
def World.createFile (w : World) (path : String) : World :=
  { w with files := (path, "") :: w.files.filter (fun f => f.1 != path) }

/-- Bytes are appended to the file at `path`. -/
def World.appendFile (w : World) (path data : String) : World :=
  { w with files := w.files.map (fun f => if f.1 = path then (f.1, f.2 ++ data) else f) }

/-- The call `os.Remove(path)`. -/
def World.removeFile (w : World) (path : String) : World :=
  { w with files := w.files.filter (fun f => f.1 != path) }

/-- The content of the file at `path`, if the file exists. -/
def World.readFile (w : World) (path : String) : Option String :=
  w.files.lookup path

/-- What `GetDownloadURL` and `DownloadPlugin` leave behind: the world and the
returned pair `(string, error)`. -/
structure StringReturn where
  world : World
  value : String
  err : Option GoError
  deriving DecidableEq, Repr

/-- The method `Client.GetDownloadURL`: the download URL for a specific plugin
version and architecture. -/
def Client.GetDownloadURL (c : Client) (H : HTTP) (w : World)
    (pluginID version arch : String) : StringReturn :=
  let path := "/v1/plugins/" ++ pluginID ++ "/download/" ++ version ++ "/" ++ arch
  let url := c.baseURL ++ path
  match H.NewRequest "GET" url with
  | some err => ⟨w, "", some (.wrap "creating request" err)⟩
  | none =>
    let req : Request := ⟨"GET", url, [], none⟩
    let w := w.send req
    match H.DoNoFollow req with
    | .error err => ⟨w, "", some (.wrap "executing request" err)⟩
    | .ok resp =>
      if resp.StatusCode = 302 ∨ resp.StatusCode = 307 then
        ⟨w, headerGet resp.Header "Location", none⟩
      else if resp.StatusCode ≥ 400 then
        ⟨w, "", some (.api ⟨resp.StatusCode, "download not available"⟩)⟩
      else
        ⟨w, "", some (.foreign
          ("unexpected status " ++ toString resp.StatusCode ++ " from download endpoint"))⟩

/-- The method `Client.RecordDownload`: records a download event for
analytics.  `marshal` is `json.Marshal` on the `map[string]string` body. -/
def Client.RecordDownload (c : Client) (H : HTTP) (J : JSON Unit) (w : World)
    (marshal : List (String × String) → Except String String)
    (pluginID version arch : String) : DoResult Unit :=
  let body := [("plugin_id", pluginID), ("version", version), ("arch", arch)]
  c.post H J w marshal ("/v1/plugins/" ++ pluginID ++ "/downloads") (some body) none

/-- The method `Client.GetDailyDownloads`: daily download counts for a
plugin. -/
def Client.GetDailyDownloads (c : Client) (H : HTTP) (J : JSON (Option (List DailyDownloads)))
    (w : World) (pluginID : String) (days : Int) : SliceReturn DailyDownloads :=
  let path := "/v1/plugins/" ++ pluginID ++ "/downloads/daily?days=" ++ toString days
  let dd : Option (List DailyDownloads) := none
  let r := c.get H J w path (some dd)
  match r.err with
  | some err => ⟨r.world, none, some err⟩
  | none => ⟨r.world, r.dst.getD dd, none⟩

/-- The method `Client.DownloadPlugin`: downloads, verifies, and returns the
temp file path for a plugin version.  `VerifyArtifactSignature` is the
package function of that name, whose file is not among the sources. -/
def Client.DownloadPlugin (c : Client) (H : HTTP) (J : JSON PluginVersion) (S : Host)
    (VerifyArtifactSignature : String → String → Option GoError) (w : World)
    (pluginID version : String) : StringReturn :=
  -- 1. Get version info with artifacts
  let r := c.GetVersion H J w pluginID version
  match r.ret with
  | .error err => ⟨r.world, "", some (.wrap "getting version info" err)⟩
  | .ok v =>
    let w := r.world
    -- 2. Determine current platform
    let platform := CurrentPlatform S
    -- 3. Look up artifact
    match mapIndex v.Artifacts platform with
    | none => ⟨w, "", some (.wrap platform (.sentinel .ErrNoPlatformArtifact))⟩
    | some artifact =>
      -- 4. Get download URL
      let u := c.GetDownloadURL H w pluginID version platform
      match u.err with
      | some err => ⟨u.world, "", some (.wrap "getting download URL" err)⟩
      | none =>
        let w := u.world
        let downloadURL := u.value
        -- 5. Download to temp file, computing SHA256 during download
        match S.CreateTemp ("omniview-plugin-" ++ pluginID ++ "-" ++ version ++ "-*.tar.gz") with
        | .error err => ⟨w, "", some (.wrap "creating temp file" err)⟩
        | .ok tmpPath =>
          let w := w.createFile tmpPath
          match H.NewRequest "GET" downloadURL with
          | some err => ⟨w.removeFile tmpPath, "", some (.wrap "creating download request" err)⟩
          | none =>
            let dlReq : Request := ⟨"GET", downloadURL, [], none⟩
            let w := w.send dlReq
            match H.Do dlReq with
            | .error err => ⟨w.removeFile tmpPath, "", some (.wrap "downloading artifact" err)⟩
            | .ok dlResp =>
              if dlResp.StatusCode ≠ 200 then
                ⟨w.removeFile tmpPath, "", some (.api ⟨dlResp.StatusCode, "download failed"⟩)⟩
              else
                -- io.Copy into the file and the hasher: the bytes the body delivers
                -- reach the file; the copy fails with the write error, if any,
                -- else with the error the body stream ends with
                let w := w.appendFile tmpPath dlResp.Body
                let copyErr :=
                  match S.WriteErr tmpPath dlResp.Body with
                  | some err => some err
                  | none => dlResp.ReadErr
                match copyErr with
                | some err => ⟨w.removeFile tmpPath, "", some (.wrap "writing artifact" err)⟩
                | none =>
                  -- 6. Verify checksum
                  let checksum := S.sha256hex dlResp.Body
                  if checksum ≠ artifact.Checksum then
                    ⟨w.removeFile tmpPath, "",
                      some (.wrap ("expected " ++ artifact.Checksum ++ ", got " ++ checksum)
                        (.sentinel .ErrChecksumMismatch))⟩
                  else
                    -- 7. Verify signature
                    match VerifyArtifactSignature checksum artifact.Signature with
                    | some err =>
                      ⟨w.removeFile tmpPath, "",
                        some (.wrap "signature verification failed" err)⟩
                    | none => ⟨w, tmpPath, none⟩

/-! ## What the transport delivers -/

/-- The request `do` hands to the transport (client.go, lines 87 to 97). -/
def Client.requestOf (c : Client) (method path : String) (body : Option String) : Request :=
  let req : Request := ⟨method, c.baseURL ++ path, [], body⟩
  let req := if body.isSome then req.setHeader "Content-Type" "application/json" else req
  if c.token ≠ "" then req.setHeader "Authorization" ("Bearer " ++ c.token) else req

/-- The call reaches the decoding step with response `resp`: the request is
built, the transport answers it with `resp`, and the body is read to EOF. -/
structure Client.Receives (c : Client) (T : HTTP) (method path : String)
    (body : Option String) (resp : Response) : Prop where
  built : T.NewRequest method (c.baseURL ++ path) = none
  answered : T.Do (c.requestOf method path body) = .ok resp
  read : resp.ReadErr = none

/-! ## The query string of `buildQuery` -/

/-- The `url.Values` that `buildQuery` fills (types_options.go lines 25 to
46), for a non-nil receiver. -/
def ListOptions.values (o : ListOptions) : Values :=
  let q : Values := []
  let q := if o.Page > 0 then q.Set "page" (toString o.Page) else q
  let q := if o.PerPage > 0 then q.Set "per_page" (toString o.PerPage) else q
  let q := if o.OrderField ≠ "" then q.Set "order_field" o.OrderField else q
  let q := if o.OrderDirection ≠ "" then q.Set "order_direction" o.OrderDirection else q
  let q := if o.Search ≠ "" then q.Set "search" o.Search else q
  let q := if o.Category ≠ "" then q.Set "category" o.Category else q
  if o.Featured then q.Set "featured" "true" else q

/-- The query parameters a `ListOptions` sets, stated from the claim: one pair
for each set field and none for an unset one, listed by key in alphabetical
order. -/
def ListOptions.params (o : ListOptions) : List (String × String) :=
  (if o.Category ≠ "" then [("category", o.Category)] else []) ++
  (if o.Featured then [("featured", "true")] else []) ++
  (if o.OrderDirection ≠ "" then [("order_direction", o.OrderDirection)] else []) ++
  (if o.OrderField ≠ "" then [("order_field", o.OrderField)] else []) ++
  (if o.Page > 0 then [("page", toString o.Page)] else []) ++
  (if o.PerPage > 0 then [("per_page", toString o.PerPage)] else []) ++
  (if o.Search ≠ "" then [("search", o.Search)] else [])

/-! ## The signature check and the stages of a download -/

/-- Modelled from the spec: the package function
`VerifyArtifactSignature(checksum, signature)`, whose file is not among the
sources.  Spec 4.4: the signature is verified against the checksum string with
the publisher's known public key material; an empty or missing signature is
the `Unsigned` failure (`ErrUnsignedArtifact`), and a signature that is present
but fails the cryptographic check is the distinct `InvalidSignature` failure
(`ErrInvalidSignature`).  `verifies checksum signature` is that cryptographic
check. -/
def VerifyArtifactSignature (verifies : String → String → Bool)
    (checksum signature : String) : Option GoError :=
  if signature = "" then some (.sentinel .ErrUnsignedArtifact)
  else if verifies checksum signature then none
  else some (.sentinel .ErrInvalidSignature)

/-- The name pattern `DownloadPlugin` gives `os.CreateTemp` (downloads.go
line 101). -/
def tempPattern (pluginID version : String) : String :=
  "omniview-plugin-" ++ pluginID ++ "-" ++ version ++ "-*.tar.gz"

/-- The result of step 4 of `DownloadPlugin`: `GetDownloadURL` called in the
world `GetVersion` left. -/
def Client.located (c : Client) (H : HTTP) (J : JSON PluginVersion) (S : Host) (w : World)
    (pluginID version : String) : StringReturn :=
  c.GetDownloadURL H (c.GetVersion H J w pluginID version).world pluginID version
    (CurrentPlatform S)

/-- The request `DownloadPlugin` makes for the artifact bytes. -/
def Client.artifactRequest (c : Client) (H : HTTP) (J : JSON PluginVersion) (S : Host)
    (w : World) (pluginID version : String) : Request :=
  ⟨"GET", (c.located H J S w pluginID version).value, [], none⟩

/-- The call of `DownloadPlugin` has created its temp file at `tmpPath`: the version
metadata was fetched and has an artifact for the current platform, the
download URL was resolved, and `os.CreateTemp` succeeded. -/
structure Client.Created (c : Client) (H : HTTP) (J : JSON PluginVersion) (S : Host)
    (w : World) (pluginID version : String) (artifact : Artifact) (tmpPath : String) :
    Prop where
  fetched : ∃ v, (c.GetVersion H J w pluginID version).ret = .ok v ∧
    mapIndex v.Artifacts (CurrentPlatform S) = some artifact
  resolved : (c.located H J S w pluginID version).err = none
  temp : S.CreateTemp (tempPattern pluginID version) = .ok tmpPath

/-- The call of `DownloadPlugin` has streamed the whole body of `dlResp` into the temp
file: `Created`, and the artifact request was built, answered with status
200, and copied without a write or read error. -/
structure Client.Streamed (c : Client) (H : HTTP) (J : JSON PluginVersion) (S : Host)
    (w : World) (pluginID version : String) (artifact : Artifact) (tmpPath : String)
    (dlResp : Response) : Prop where
  created : c.Created H J S w pluginID version artifact tmpPath
  built : H.NewRequest "GET" (c.located H J S w pluginID version).value = none
  answered : H.Do (c.artifactRequest H J S w pluginID version) = .ok dlResp
  ok : dlResp.StatusCode = 200
  written : S.WriteErr tmpPath dlResp.Body = none
  read : dlResp.ReadErr = none

/-- A registry that serves the artifact: the version metadata was fetched and
has the artifact `artifact` for the current platform, the download endpoint
answers with the redirect `redirect` (302 or 307), the temp file can be
created, and the `Location` of the redirect answers 200 with a body that is
read and written without error. -/
structure Client.Served (c : Client) (H : HTTP) (J : JSON PluginVersion) (S : Host)
    (w : World) (pluginID version : String) (artifact : Artifact) (redirect : Response)
    (tmpPath : String) (dlResp : Response) : Prop where
  fetched : ∃ v, (c.GetVersion H J w pluginID version).ret = .ok v ∧
    mapIndex v.Artifacts (CurrentPlatform S) = some artifact
  endpoint : H.NewRequest "GET" (c.baseURL ++
    ("/v1/plugins/" ++ pluginID ++ "/download/" ++ version ++ "/" ++ CurrentPlatform S)) = none
  redirected : H.DoNoFollow ⟨"GET", c.baseURL ++
    ("/v1/plugins/" ++ pluginID ++ "/download/" ++ version ++ "/" ++ CurrentPlatform S),
    [], none⟩ = .ok redirect
  status : redirect.StatusCode = 302 ∨ redirect.StatusCode = 307
  temp : S.CreateTemp (tempPattern pluginID version) = .ok tmpPath
  built : H.NewRequest "GET" (headerGet redirect.Header "Location") = none
  answered : H.Do ⟨"GET", headerGet redirect.Header "Location", [], none⟩ = .ok dlResp
  ok : dlResp.StatusCode = 200
  written : S.WriteErr tmpPath dlResp.Body = none
  read : dlResp.ReadErr = none

/-- The world at the end of the streaming step: after the download URL was
resolved, the temp file was created, the artifact request was sent and the
body was written. -/
def Client.streamedWorld (c : Client) (H : HTTP) (J : JSON PluginVersion) (S : Host)
    (w : World) (pluginID version : String) (tmpPath : String) (dlResp : Response) : World :=
  ((((c.located H J S w pluginID version).world).createFile tmpPath).send
    (c.artifactRequest H J S w pluginID version)).appendFile tmpPath dlResp.Body

/-! ## Sample collaborators -/

/-- A client with the default base URL and no token. -/
def demoClient : Client := ⟨"https://api.omniview.dev", ""⟩

/-- A transport on which every request is valid and answered with `resp`. -/
def HTTP.always (resp : Response) : HTTP :=
  ⟨fun _ _ => none, fun _ => .ok resp, fun _ => .ok resp⟩

/-- A response with the given status and body, fully readable. -/
def demoResponse (status : Int) (body : String) : Response := ⟨status, [], body, none⟩

/-- What `json.Unmarshal` into the envelope gives on a few bodies. -/
def demoEnvelope (b : String) : Except String apiResponse :=
  if b = "\x7b\"success\":false,\"message\":\"unauthorized\"\x7d" then
    .ok ⟨false, none, "unauthorized", none⟩
  else if b = "\x7b\"success\":false\x7d" then .ok ⟨false, none, "", none⟩
  else if b = "\x7b\"success\":false,\"data\":[\"a\"],\"message\":\"rejected\"\x7d" then
    .ok ⟨false, some "[\"a\"]", "rejected", none⟩
  else if b = "\x7b\"success\":true\x7d" then .ok ⟨true, none, "", none⟩
  else if b = "\x7b\"success\":true,\"data\":null\x7d" then .ok ⟨true, some "null", "", none⟩
  else if b = "\x7b\"success\":true,\"data\":null,\"pagination\":\x7b\"page\":1,\"per_page\":10,\"total\":0,\"total_pages\":0\x7d\x7d" then
    .ok ⟨true, some "null", "", some ⟨1, 10, 0, 0⟩⟩
  else if b = "\x7b\"success\":true,\"data\":[\"a\"]\x7d" then
    .ok ⟨true, some "[\"a\"]", "", none⟩
  else if b = "\x7b\"success\":true,\"data\":7\x7d" then .ok ⟨true, some "7", "", none⟩
  else if b = "404 page not found\n" then
    .error "invalid character p after top-level value"
  else .error "unexpected end of JSON input"

/-- What `json.Unmarshal(raw, dst)` gives for a `*[]string` destination on a
few raw values. -/
def demoData (raw : String) (d : Option (List String)) : Option (List String) × Option String :=
  if raw = "null" then (none, none)
  else if raw = "[\"a\"]" then (some ["a"], none)
  else if raw = "[]" then (some [], none)
  else (d, some "json: cannot unmarshal number into Go value of type []string")

/-- The sample JSON library, for a `*[]string` destination. -/
def demoJSON : JSON (Option (List String)) := ⟨demoEnvelope, demoData⟩

/-- The world before any call. -/
def World.init : World := ⟨[], []⟩

/-- The sample JSON library for a call without destination. -/
def demoUnitJSON : JSON Unit := ⟨demoEnvelope, fun _ d => (d, none)⟩

/-- A sample `json.Marshal` on a `map[string]string`: keys sorted, no escapes
needed in the samples. -/
def demoMarshal (m : List (String × String)) : Except String String :=
  .ok ("\x7b" ++ ",".intercalate
    ((m.insertionSort (fun a b => stringLE a.1 b.1 = true)).map
      fun kv => "\"" ++ kv.1 ++ "\":\"" ++ kv.2 ++ "\"") ++ "\x7d")

/-- The sample JSON library for a slice destination `*[]T`: JSON null sets
the slice to nil, `[]` to an empty non-nil slice. -/
def demoSliceJSON (T : Type) : JSON (Option (List T)) :=
  ⟨demoEnvelope, fun raw d =>
    if raw = "null" then (none, none)
    else if raw = "[]" then (some [], none)
    else (d, some "json: cannot unmarshal into Go value")⟩

/-- The sample JSON library for a struct destination `*T`: JSON null leaves
the struct as it is. -/
def demoStructJSON (T : Type) : JSON T :=
  ⟨demoEnvelope, fun raw d =>
    if raw = "null" then (d, none) else (d, some "json: cannot unmarshal into Go value")⟩

/-- A sample host: linux on amd64, a fixed temp file name, writes that
succeed, and a fixed digest. -/
def demoHost : Host :=
  ⟨"linux", "amd64", fun _ => .ok "/tmp/omniview-plugin-demo-1.0.0-1.tar.gz",
    fun _ _ => none, fun _ => "c1"⟩

/-- A sample signature check: only the empty signature is rejected. -/
def demoVerify (_checksum signature : String) : Option GoError :=
  if signature = "" then some (.sentinel .ErrUnsignedArtifact) else none

/-- The JSON text of an artifact map. -/
def demoArtifactsText (artifacts : List (String × Artifact)) : String :=
  "\x7b" ++ ",".intercalate (artifacts.map fun kv =>
    "\"" ++ kv.1 ++ "\":\x7b\"checksum\":\"" ++ kv.2.Checksum ++ "\",\"signature\":\"" ++
      kv.2.Signature ++ "\",\"download_url\":\"" ++ kv.2.DownloadURL ++ "\",\"size\":" ++
      toString kv.2.Size ++ "\x7d") ++ "\x7d"

/-- The JSON text of version 1.0.0 of plugin `demo` with the given artifact
map. -/
def demoVersionData (artifacts : List (String × Artifact)) : String :=
  "\x7b\"id\":\"ver-1\",\"plugin_id\":\"demo\",\"version\":\"1.0.0\",\"visible\":true," ++
    "\"artifacts\":" ++ demoArtifactsText artifacts ++ "\x7d"

/-- The envelope the registry answers `GetVersion("demo", "1.0.0")` with. -/
def demoVersionBody (artifacts : List (String × Artifact)) : String :=
  "\x7b\"success\":true,\"data\":" ++ demoVersionData artifacts ++ "\x7d"

/-- The sample JSON library for a `*PluginVersion` destination: it knows the
version document with the artifact map `artifacts`. -/
def demoVersionJSON (artifacts : List (String × Artifact)) : JSON PluginVersion :=
  ⟨fun b =>
    if b = demoVersionBody artifacts then .ok ⟨true, some (demoVersionData artifacts), "", none⟩
    else demoEnvelope b,
   fun raw d =>
    if raw = demoVersionData artifacts then
      ({ d with ID := "ver-1", PluginID := "demo", Version := "1.0.0", Visible := true,
                Artifacts := some artifacts }, none)
    else (d, some "json: cannot unmarshal into Go value of type registry.PluginVersion")⟩

/-- A sample registry for plugin `demo`, version 1.0.0, seen from linux on
amd64: the version endpoint answers with the version document, the download
endpoint redirects to `location`, and `location` answers with `artifactResp`;
everything else is a 404 page. -/
def demoRegistry (artifacts : List (String × Artifact)) (location : String)
    (artifactResp : Response) : HTTP :=
  ⟨fun _ _ => none,
   fun req =>
    if req.URL = "https://api.omniview.dev/v1/plugins/demo/versions/1.0.0" then
      .ok (demoResponse 200 (demoVersionBody artifacts))
    else if req.URL = location then .ok artifactResp
    else .ok (demoResponse 404 "404 page not found\n"),
   fun req =>
    if req.URL = "https://api.omniview.dev/v1/plugins/demo/download/1.0.0/linux_amd64" then
      .ok ⟨302, [("Location", location)], "", none⟩
    else .ok (demoResponse 404 "404 page not found\n")⟩

/-- The location the sample download endpoint redirects to. -/
def demoLocation : String := "https://cdn.omniview.dev/demo/1.0.0/demo-linux_amd64.tar.gz"

/-- A sample cryptographic check: the valid signature of a checksum is the
checksum between `sig(` and `)`. -/
def demoVerifies (checksum signature : String) : Bool :=
  signature == "sig(" ++ checksum ++ ")"

/-- An artifact map without an entry for `linux_amd64`, but with another
platform, a shorter key, a case variant and a longer key. -/
def demoOtherArtifacts : List (String × Artifact) :=
  [("windows_amd64", ⟨"c1", "sig(c1)", "demo/1.0.0/demo-windows_amd64.tar.gz", 1024⟩),
   ("linux", ⟨"c1", "sig(c1)", "demo/1.0.0/demo-linux.tar.gz", 1024⟩),
   ("Linux_amd64", ⟨"c1", "sig(c1)", "demo/1.0.0/demo-Linux_amd64.tar.gz", 1024⟩),
   ("linux_amd64_v2", ⟨"c1", "sig(c1)", "demo/1.0.0/demo-linux_amd64_v2.tar.gz", 1024⟩)]

/-- The version metadata the sample JSON library decodes. -/
def demoVersion (artifacts : List (String × Artifact)) : PluginVersion :=
  { PluginVersion.zero with ID := "ver-1", PluginID := "demo", Version := "1.0.0",
                            Visible := true, Artifacts := some artifacts }

/-- The artifact record for `linux_amd64` with the given checksum and
signature. -/
def demoArtifact (checksum signature : String) : Artifact :=
  ⟨checksum, signature, "demo/1.0.0/demo-linux_amd64.tar.gz", 12⟩

/-- The redirect of the sample download endpoint. -/
def demoRedirect : Response := ⟨302, [("Location", demoLocation)], "", none⟩

/-- The temp file of the sample host. -/
def demoTemp : String := "/tmp/omniview-plugin-demo-1.0.0-1.tar.gz"

/-- A sample download: `DownloadPlugin("demo", "1.0.0")` on the sample host
against the sample registry whose version document has the one artifact
`linux_amd64` with the given checksum and signature and whose artifact
location answers `artifactResp`, with the signature checked by `verify`. -/
def demoDownload (checksum signature : String) (artifactResp : Response)
    (verify : String → String → Option GoError) : StringReturn :=
  demoClient.DownloadPlugin
    (demoRegistry [("linux_amd64", demoArtifact checksum signature)] demoLocation artifactResp)
    (demoVersionJSON [("linux_amd64", demoArtifact checksum signature)])
    demoHost verify World.init "demo" "1.0.0"

/-- The contract of a paginated list operation `op` (as a function of the JSON
library) fetching `path`, on a response `resp` whose body parses as the
envelope `envelope` with `success` true: (1) if `data` is absent, or is JSON
null (which `encoding/json` stores into a slice as nil), the operation returns
no error, `Items` is the empty non-nil slice and `Pagination` is the
envelope's; (2) whenever the operation returns no error, `Pagination` is the
envelope's and `Items` is not nil. -/
def ListContract {T : Type} (c : Client) (H : HTTP) (path : String) (resp : Response)
    (envelope : apiResponse) (op : JSON (Option (List T)) → ListReturn T) : Prop :=
  ∀ J : JSON (Option (List T)),
    c.Receives H "GET" path none resp →
    J.unmarshalEnvelope resp.Body = .ok envelope →
    envelope.Success = true →
    ((envelope.Data = none ∨
        (envelope.Data = some "null" ∧ J.unmarshalData "null" none = (none, none))) →
      (op J).err = none ∧ (op J).result.Items = some [] ∧
        (op J).result.Pagination = envelope.Pagination) ∧
    ((op J).err = none →
      (op J).result.Pagination = envelope.Pagination ∧ (op J).result.Items ≠ none)

/-! ## Envelope decoding: status at or above 400 -/

/-- Under `Receives`, `do` is its decoding step (client.go, lines 110 to 134)
applied to the response. -/
theorem do_of_receives {D : Type} {c : Client} {T : HTTP} {method path : String}
    {body : Option String} {resp : Response} (h : c.Receives T method path body resp)
    (J : JSON D) (w : World) (dst : Option D) :
    c.do_ T J w method path body dst =
      c.do_ (HTTP.always resp) J w method path body dst := by
  have h2 := h.answered
  unfold Client.requestOf at h2
  simp only [Client.do_, h.built, h2, h.read, HTTP.always]

/-- Under `Receives`, `getList` is its decoding step (client.go, lines 160 to
180) applied to the response. -/
theorem getList_of_receives {D : Type} {c : Client} {T : HTTP} {path : String}
    {resp : Response} (h : c.Receives T "GET" path none resp)
    (J : JSON D) (w : World) (dst : D) :
    c.getList T J w path dst = c.getList (HTTP.always resp) J w path dst := by
  have h2 := h.answered
  simp only [Client.requestOf, Option.isSome_none, Bool.false_eq_true, if_false] at h2
  simp only [Client.getList, h.built, h2, h.read, HTTP.always]

/-- Claim C1 (`Client.do`, `Client.getList`). A response with status at or above
400 whose body parses as an envelope with a non-empty message makes both fail
with the `APIError` carrying that status and the envelope's message, whatever
the envelope's `success` and `data` and whether or not a destination is given;
the destination is not written and no pagination is returned. -/
theorem C1_error_envelope_message {D : Type} (c : Client) (T : HTTP) (J : JSON D) (w : World)
    (method path : String) (body : Option String) (resp : Response) (envelope : apiResponse)
    (hstatus : resp.StatusCode ≥ 400)
    (hparse : J.unmarshalEnvelope resp.Body = .ok envelope)
    (hmsg : envelope.Message ≠ "") :
    (∀ dst : Option D, c.Receives T method path body resp →
        (c.do_ T J w method path body dst).err
            = some (.api ⟨resp.StatusCode, envelope.Message⟩) ∧
        (c.do_ T J w method path body dst).dst = dst) ∧
    (∀ dst : D, c.Receives T "GET" path none resp →
        (c.getList T J w path dst).err
            = some (.api ⟨resp.StatusCode, envelope.Message⟩) ∧
        (c.getList T J w path dst).dst = dst ∧
        (c.getList T J w path dst).pag = none) := by
  refine ⟨fun dst h => ?_, fun dst h => ?_⟩
  · rw [do_of_receives h]
    simp [Client.do_, HTTP.always, h.read, hstatus, hparse, hmsg]
  · rw [getList_of_receives h]
    simp [Client.getList, HTTP.always, h.read, hstatus, hparse, hmsg]

/-- Witness for C1: an unauthenticated `CreateReview`-style POST answered with
status 401 and an envelope whose message is "unauthorized". -/
theorem C1_error_envelope_message_witness :
    (demoClient.do_ (HTTP.always (demoResponse 401
        "\x7b\"success\":false,\"message\":\"unauthorized\"\x7d")) demoJSON World.init
        "POST" "/v1/plugins/test-plugin/reviews" (some "\x7b\"rating\":5\x7d") (some none)).err
      = some (.api ⟨401, "unauthorized"⟩) :=
  ((C1_error_envelope_message demoClient
      (HTTP.always (demoResponse 401 "\x7b\"success\":false,\"message\":\"unauthorized\"\x7d"))
      demoJSON World.init "POST" "/v1/plugins/test-plugin/reviews" (some "\x7b\"rating\":5\x7d")
      (demoResponse 401 "\x7b\"success\":false,\"message\":\"unauthorized\"\x7d")
      ⟨false, none, "unauthorized", none⟩ (by decide) (by rfl) (by decide)).1
    (some none) ⟨rfl, rfl, rfl⟩).1

/-- Claim C2 (`Client.do`, `Client.getList`). A response with status at or above
400 whose body does not parse as an envelope, or parses with an empty message,
makes both fail with the `APIError` carrying that status and the raw body text
verbatim. -/
theorem C2_error_raw_body {D : Type} (c : Client) (T : HTTP) (J : JSON D) (w : World)
    (method path : String) (body : Option String) (resp : Response)
    (hstatus : resp.StatusCode ≥ 400)
    (hbad : (∃ e, J.unmarshalEnvelope resp.Body = .error e) ∨
      (∃ envelope, J.unmarshalEnvelope resp.Body = .ok envelope ∧ envelope.Message = "")) :
    (∀ dst : Option D, c.Receives T method path body resp →
        (c.do_ T J w method path body dst).err = some (.api ⟨resp.StatusCode, resp.Body⟩) ∧
        (c.do_ T J w method path body dst).dst = dst) ∧
    (∀ dst : D, c.Receives T "GET" path none resp →
        (c.getList T J w path dst).err = some (.api ⟨resp.StatusCode, resp.Body⟩) ∧
        (c.getList T J w path dst).dst = dst ∧
        (c.getList T J w path dst).pag = none) := by
  refine ⟨fun dst h => ?_, fun dst h => ?_⟩
  · rw [do_of_receives h]
    rcases hbad with ⟨e, he⟩ | ⟨envelope, he, hm⟩ <;>
      simp [Client.do_, HTTP.always, h.read, hstatus, he, *]
  · rw [getList_of_receives h]
    rcases hbad with ⟨e, he⟩ | ⟨envelope, he, hm⟩ <;>
      simp [Client.getList, HTTP.always, h.read, hstatus, he, *]

/-- Witness for C2: the plain-text 404 page of a Go `ServeMux` comes back as
the message of the `APIError`, both through `do` and through `getList`. -/
theorem C2_error_raw_body_witness :
    (demoClient.do_ (HTTP.always (demoResponse 404 "404 page not found\n")) demoJSON World.init
        "GET" "/v1/plugins/nonexistent" none (some none)).err
      = some (.api ⟨404, "404 page not found\n"⟩) ∧
    (demoClient.getList (HTTP.always (demoResponse 404 "404 page not found\n")) demoJSON
        World.init "/v1/plugins/nonexistent/versions" none).err
      = some (.api ⟨404, "404 page not found\n"⟩) :=
  ⟨((C2_error_raw_body demoClient (HTTP.always (demoResponse 404 "404 page not found\n"))
      demoJSON World.init "GET" "/v1/plugins/nonexistent" none
      (demoResponse 404 "404 page not found\n") (by decide) (Or.inl ⟨_, rfl⟩)).1
      (some none) ⟨rfl, rfl, rfl⟩).1,
   ((C2_error_raw_body demoClient (HTTP.always (demoResponse 404 "404 page not found\n"))
      demoJSON World.init "GET" "/v1/plugins/nonexistent/versions" none
      (demoResponse 404 "404 page not found\n") (by decide) (Or.inl ⟨_, rfl⟩)).2
      none ⟨rfl, rfl, rfl⟩).1⟩

/-! ## Envelope decoding: `success` false -/

/-- Claim C3, counterexample.  (1) `RecordDownload` answered with status 200 and
an envelope with `success` false and message "unauthorized" returns nil, not
an `APIError`.  (2) `do` with a destination, answered with status 500 and an
envelope with `success` false and no message, returns an `APIError` whose
message is the raw body, not the envelope's (empty) message. -/
theorem C3_success_false_counterexample :
    (demoEnvelope "\x7b\"success\":false,\"message\":\"unauthorized\"\x7d"
        = .ok ⟨false, none, "unauthorized", none⟩ ∧
      (demoClient.RecordDownload (HTTP.always (demoResponse 200
          "\x7b\"success\":false,\"message\":\"unauthorized\"\x7d")) demoUnitJSON World.init
          demoMarshal "test-plugin" "1.0.0" "darwin_arm64").err = none) ∧
    (demoEnvelope "\x7b\"success\":false\x7d" = .ok ⟨false, none, "", none⟩ ∧
      (demoClient.do_ (HTTP.always (demoResponse 500 "\x7b\"success\":false\x7d")) demoJSON
          World.init "GET" "/v1/categories" none (some none)).err
        = some (.api ⟨500, "\x7b\"success\":false\x7d"⟩)) := by
  refine ⟨⟨rfl, ?_⟩, ⟨rfl, ?_⟩⟩
  · rfl
  · rfl

/-- Claim C3, as amended (`Client.do`, `Client.getList`).  When the body parses
as an envelope with `success` false: at status 400 or above both fail with an
`APIError` carrying the status, whose message is the envelope's message when
that is non-empty and the raw body text otherwise; below 400, `do` with a
destination and `getList` fail with an `APIError` carrying the status and the
envelope's message, and `do` without a destination returns nil. -/
theorem C3_success_false_by_status {D : Type} (c : Client) (T : HTTP) (J : JSON D) (w : World)
    (method path : String) (body : Option String) (resp : Response) (envelope : apiResponse)
    (hparse : J.unmarshalEnvelope resp.Body = .ok envelope)
    (hfalse : envelope.Success = false) :
    (∀ dst : Option D, c.Receives T method path body resp →
        (c.do_ T J w method path body dst).err =
          if resp.StatusCode ≥ 400 then
            some (.api ⟨resp.StatusCode,
              if envelope.Message ≠ "" then envelope.Message else resp.Body⟩)
          else if dst.isSome then some (.api ⟨resp.StatusCode, envelope.Message⟩)
          else none) ∧
    (∀ dst : D, c.Receives T "GET" path none resp →
        (c.getList T J w path dst).err =
          if resp.StatusCode ≥ 400 then
            some (.api ⟨resp.StatusCode,
              if envelope.Message ≠ "" then envelope.Message else resp.Body⟩)
          else some (.api ⟨resp.StatusCode, envelope.Message⟩)) := by
  refine ⟨fun dst h => ?_, fun dst h => ?_⟩
  · rw [do_of_receives h]
    by_cases hs : resp.StatusCode ≥ 400
    · by_cases hm : envelope.Message = "" <;>
        simp [Client.do_, HTTP.always, h.read, hs, hparse, hm]
    · cases dst <;> simp [Client.do_, HTTP.always, h.read, hs, hparse, hfalse]
  · rw [getList_of_receives h]
    by_cases hs : resp.StatusCode ≥ 400
    · by_cases hm : envelope.Message = "" <;>
        simp [Client.getList, HTTP.always, h.read, hs, hparse, hm]
    · simp [Client.getList, HTTP.always, h.read, hs, hparse, hfalse]

/-- Witness for the amended C3: a 200 answer with `success` false and message
"rejected" (and data present) gives `APIError(200, "rejected")` through `do`
with a destination. -/
theorem C3_success_false_by_status_witness :
    (demoClient.do_ (HTTP.always (demoResponse 200
        "\x7b\"success\":false,\"data\":[\"a\"],\"message\":\"rejected\"\x7d")) demoJSON
        World.init "GET" "/v1/categories" none (some none)).err
      = some (.api ⟨200, "rejected"⟩) :=
  (C3_success_false_by_status demoClient
    (HTTP.always (demoResponse 200
      "\x7b\"success\":false,\"data\":[\"a\"],\"message\":\"rejected\"\x7d"))
    demoJSON World.init "GET" "/v1/categories" none
    (demoResponse 200 "\x7b\"success\":false,\"data\":[\"a\"],\"message\":\"rejected\"\x7d")
    ⟨false, some "[\"a\"]", "rejected", none⟩ rfl rfl).1 (some none) ⟨rfl, rfl, rfl⟩

/-- Claim C4 (`Client.do`, and `Client.getList`).  A response with status below
400 whose body parses as an envelope with `success` false, when a destination
was requested, fails with the `APIError` carrying exactly that status and the
envelope's message; the destination is left as it was, even if `data` is
present. -/
theorem C4_sub400_success_false {D : Type} (c : Client) (T : HTTP) (J : JSON D) (w : World)
    (method path : String) (body : Option String) (resp : Response) (envelope : apiResponse)
    (d : D)
    (hstatus : resp.StatusCode < 400)
    (hparse : J.unmarshalEnvelope resp.Body = .ok envelope)
    (hfalse : envelope.Success = false) :
    (c.Receives T method path body resp →
        (c.do_ T J w method path body (some d)).err
            = some (.api ⟨resp.StatusCode, envelope.Message⟩) ∧
        (c.do_ T J w method path body (some d)).dst = some d) ∧
    (c.Receives T "GET" path none resp →
        (c.getList T J w path d).err = some (.api ⟨resp.StatusCode, envelope.Message⟩) ∧
        (c.getList T J w path d).dst = d ∧
        (c.getList T J w path d).pag = none) := by
  have hs : ¬ resp.StatusCode ≥ 400 := by omega
  refine ⟨fun h => ?_, fun h => ?_⟩
  · rw [do_of_receives h]
    simp [Client.do_, HTTP.always, h.read, hs, hparse, hfalse]
  · rw [getList_of_receives h]
    simp [Client.getList, HTTP.always, h.read, hs, hparse, hfalse]

/-- Witness for C4: status 200, `success` false, message "rejected", data
`["a"]`; the destination (a nil slice) stays nil. -/
theorem C4_sub400_success_false_witness :
    (demoClient.do_ (HTTP.always (demoResponse 200
        "\x7b\"success\":false,\"data\":[\"a\"],\"message\":\"rejected\"\x7d")) demoJSON
        World.init "GET" "/v1/categories" none (some none)).err
      = some (.api ⟨200, "rejected"⟩) ∧
    (demoClient.do_ (HTTP.always (demoResponse 200
        "\x7b\"success\":false,\"data\":[\"a\"],\"message\":\"rejected\"\x7d")) demoJSON
        World.init "GET" "/v1/categories" none (some none)).dst = some none :=
  (C4_sub400_success_false demoClient
    (HTTP.always (demoResponse 200
      "\x7b\"success\":false,\"data\":[\"a\"],\"message\":\"rejected\"\x7d"))
    demoJSON World.init "GET" "/v1/categories" none
    (demoResponse 200 "\x7b\"success\":false,\"data\":[\"a\"],\"message\":\"rejected\"\x7d")
    ⟨false, some "[\"a\"]", "rejected", none⟩ none (by decide) rfl rfl).1 ⟨rfl, rfl, rfl⟩

/-! ## No destination -/

/-- Claim C5 (`Client.do`).  A response with status below 400, when no
destination is requested, makes `do` return nil and no value, whatever the
body and whatever the JSON library would make of it; in particular
`RecordDownload`, once its body is marshalled, returns nil. -/
theorem C5_no_destination {D : Type} (c : Client) (T : HTTP) (J : JSON D) (w : World)
    (method path : String) (body : Option String) (resp : Response)
    (hstatus : resp.StatusCode < 400) :
    (c.Receives T method path body resp →
        (c.do_ T J w method path body none).err = none ∧
        (c.do_ T J w method path body none).dst = none) ∧
    (∀ (JU : JSON Unit) (marshal : List (String × String) → Except String String)
        (pluginID version arch data : String),
        marshal [("plugin_id", pluginID), ("version", version), ("arch", arch)] = .ok data →
        c.Receives T "POST" ("/v1/plugins/" ++ pluginID ++ "/downloads") (some data) resp →
        (c.RecordDownload T JU w marshal pluginID version arch).err = none) := by
  have hs : ¬ resp.StatusCode ≥ 400 := by omega
  refine ⟨fun h => ?_, fun JU marshal pluginID version arch data hm h => ?_⟩
  · rw [do_of_receives h]
    simp [Client.do_, HTTP.always, h.read, hs]
  · simp only [Client.RecordDownload, Client.post, hm]
    rw [do_of_receives h]
    simp [Client.do_, HTTP.always, h.read, hs]

/-- Witness for C5: `RecordDownload` answered with status 200 and a body that
is not JSON at all. -/
theorem C5_no_destination_witness :
    (demoClient.RecordDownload (HTTP.always (demoResponse 200 "404 page not found\n"))
        demoUnitJSON World.init demoMarshal "test-plugin" "1.0.0" "darwin_arm64").err = none :=
  (C5_no_destination demoClient (HTTP.always (demoResponse 200 "404 page not found\n"))
    demoJSON World.init "POST" "/v1/plugins/test-plugin/downloads" none
    (demoResponse 200 "404 page not found\n") (by decide)).2
    demoUnitJSON demoMarshal "test-plugin" "1.0.0" "darwin_arm64" _ rfl ⟨rfl, rfl, rfl⟩

/-! ## Decode errors -/

/-- Claim C6 (`Client.do`, `Client.getList`).  With status below 400 and a
destination, if the body is not a valid envelope, or `success` is true and
`data` does not decode into the destination, both return an error, and that
error is not and does not wrap an `APIError`: `errors.As` finds none, the
error tree holds none, and `IsNotFound` is false. -/
theorem C6_decode_errors_not_api {D : Type} (c : Client) (T : HTTP) (J : JSON D) (w : World)
    (method path : String) (body : Option String) (resp : Response) (d : D)
    (hstatus : resp.StatusCode < 400)
    (hbad : (∃ e, J.unmarshalEnvelope resp.Body = .error e) ∨
      (∃ envelope raw e, J.unmarshalEnvelope resp.Body = .ok envelope ∧
        envelope.Success = true ∧ envelope.Data = some raw ∧
        (J.unmarshalData raw d).2 = some e)) :
    (c.Receives T method path body resp →
        ∃ err, (c.do_ T J w method path body (some d)).err = some err ∧
          errorsAs err = none ∧ apiErrors err = [] ∧ IsNotFound (some err) = false) ∧
    (c.Receives T "GET" path none resp →
        ∃ err, (c.getList T J w path d).err = some err ∧
          errorsAs err = none ∧ apiErrors err = [] ∧ IsNotFound (some err) = false) := by
  have hs : ¬ resp.StatusCode ≥ 400 := by omega
  refine ⟨fun h => ?_, fun h => ?_⟩
  · rw [do_of_receives h]
    rcases hbad with ⟨e, he⟩ | ⟨envelope, raw, e, he, hsucc, hdata, hdec⟩
    · refine ⟨.wrap "decoding response envelope" (.foreign e), ?_, rfl, rfl, rfl⟩
      simp [Client.do_, HTTP.always, h.read, hs, he]
    · refine ⟨.wrap "decoding response data" (.foreign e), ?_, rfl, rfl, rfl⟩
      rcases hu : J.unmarshalData raw d with ⟨d', oe⟩
      rw [hu] at hdec
      simp only at hdec
      subst hdec
      simp [Client.do_, HTTP.always, h.read, hs, he, hsucc, hdata, hu]
  · rw [getList_of_receives h]
    rcases hbad with ⟨e, he⟩ | ⟨envelope, raw, e, he, hsucc, hdata, hdec⟩
    · refine ⟨.wrap "decoding response envelope" (.foreign e), ?_, rfl, rfl, rfl⟩
      simp [Client.getList, HTTP.always, h.read, hs, he]
    · refine ⟨.wrap "decoding response data" (.foreign e), ?_, rfl, rfl, rfl⟩
      rcases hu : J.unmarshalData raw d with ⟨d', oe⟩
      rw [hu] at hdec
      simp only at hdec
      subst hdec
      simp [Client.getList, HTTP.always, h.read, hs, he, hsucc, hdata, hu]

/-- Witness for C6: a 200 answer whose `data` is the number 7, requested into
a `[]string`. -/
theorem C6_decode_errors_not_api_witness :
    ∃ err, (demoClient.do_ (HTTP.always (demoResponse 200
        "\x7b\"success\":true,\"data\":7\x7d")) demoJSON World.init
        "GET" "/v1/categories" none (some none)).err = some err ∧
      errorsAs err = none ∧ apiErrors err = [] ∧ IsNotFound (some err) = false :=
  (C6_decode_errors_not_api demoClient
    (HTTP.always (demoResponse 200 "\x7b\"success\":true,\"data\":7\x7d"))
    demoJSON World.init "GET" "/v1/categories" none
    (demoResponse 200 "\x7b\"success\":true,\"data\":7\x7d") none (by decide)
    (Or.inr ⟨⟨true, some "7", "", none⟩, "7", _, rfl, rfl, rfl, rfl⟩)).1 ⟨rfl, rfl, rfl⟩

/-! ## errors.go: `IsNotFound` -/

/-- What `errors.As` finds is the first `APIError` of the tree. -/
theorem errorsAs_eq_head (err : GoError) : errorsAs err = (apiErrors err).head? := by
  induction err with
  | api e => rfl
  | sentinel s => rfl
  | foreign msg => rfl
  | wrap context inner ih => simpa [errorsAs, apiErrors] using ih
  | join first second ih1 ih2 =>
    simp only [errorsAs, apiErrors, ih1, ih2]
    cases apiErrors first <;> simp

/-- Claim C10 (`IsNotFound`).  `IsNotFound(err)` is true exactly when the error
tree holds an `APIError` and the first one (the one `errors.As` finds) has
status 404.  So it is true for every direct `APIError` with status 404, and
for every `fmt.Errorf("...%w", e)` and every `errors.Join(ctx, e)` around it
when `ctx` holds no `APIError`; it is false for every `APIError` with another
status, for every error holding no `APIError`, and for nil. -/
theorem C10_IsNotFound_iff (err : GoError) :
    (IsNotFound (some err) = true ↔
      ∃ e, (apiErrors err).head? = some e ∧ e.StatusCode = 404) ∧
    (∀ msg, IsNotFound (some (.api ⟨404, msg⟩)) = true) ∧
    (∀ context, IsNotFound (some (.wrap context err)) = IsNotFound (some err)) ∧
    (∀ ctx, apiErrors ctx = [] →
      IsNotFound (some (.join ctx err)) = IsNotFound (some err)) ∧
    (∀ status msg, status ≠ 404 → IsNotFound (some (.api ⟨status, msg⟩)) = false) ∧
    (apiErrors err = [] → IsNotFound (some err) = false) ∧
    IsNotFound none = false := by
  refine ⟨?_, ?_, ?_, ?_, ?_, ?_, rfl⟩
  · simp only [IsNotFound, errorsAs_eq_head]
    cases (apiErrors err).head? <;> simp
  · intro msg
    simp [IsNotFound, errorsAs]
  · intro context
    simp [IsNotFound, errorsAs]
  · intro ctx hctx
    simp [IsNotFound, errorsAs, errorsAs_eq_head, hctx]
  · intro status msg hne
    simp [IsNotFound, errorsAs, hne]
  · intro hnone
    simp [IsNotFound, errorsAs_eq_head, hnone]

/-- Witness for C10: the cases of errors_test.go, a wrapped 404 detected
through `errors.Join(errors.New("context"), inner)` and a direct 500. -/
theorem C10_IsNotFound_iff_witness :
    IsNotFound (some (.join (.foreign "context") (.api ⟨404, "wrapped"⟩))) = true ∧
    IsNotFound (some (.api ⟨500, "server error"⟩)) = false ∧
    IsNotFound (some (.foreign "something else")) = false :=
  ⟨((C10_IsNotFound_iff (.api ⟨404, "wrapped"⟩)).2.2.2.1 (.foreign "context") rfl).trans
      ((C10_IsNotFound_iff (.api ⟨404, "wrapped"⟩)).2.1 "wrapped"),
    (C10_IsNotFound_iff (.foreign "x")).2.2.2.2.1 500 "server error" (by decide),
    (C10_IsNotFound_iff (.foreign "something else")).2.2.2.2.2.1 rfl⟩

/-! ## List operations -/

/-- On a response with status below 400 whose envelope has `success` true,
`getList` decodes `data` when present and returns the envelope's pagination. -/
theorem getList_success {D : Type} {c : Client} {T : HTTP} {path : String} {resp : Response}
    {envelope : apiResponse} (h : c.Receives T "GET" path none resp) (J : JSON D) (w : World)
    (dst : D) (hstatus : resp.StatusCode < 400)
    (hparse : J.unmarshalEnvelope resp.Body = .ok envelope) (hsucc : envelope.Success = true) :
    (envelope.Data = none →
      (c.getList T J w path dst).err = none ∧ (c.getList T J w path dst).dst = dst ∧
      (c.getList T J w path dst).pag = envelope.Pagination) ∧
    (∀ raw, envelope.Data = some raw →
      ((J.unmarshalData raw dst).2 = none →
        (c.getList T J w path dst).err = none ∧
        (c.getList T J w path dst).dst = (J.unmarshalData raw dst).1 ∧
        (c.getList T J w path dst).pag = envelope.Pagination) ∧
      ((J.unmarshalData raw dst).2 ≠ none → (c.getList T J w path dst).err ≠ none)) := by
  have hs : ¬ resp.StatusCode ≥ 400 := by omega
  rw [getList_of_receives h]
  refine ⟨fun hd => ?_, fun raw hd => ⟨fun hdec => ?_, fun hdec => ?_⟩⟩
  · simp [Client.getList, HTTP.always, h.read, hs, hparse, hsucc, hd]
  · rcases hu : J.unmarshalData raw dst with ⟨d', oe⟩
    rw [hu] at hdec
    simp only at hdec
    subst hdec
    simp [Client.getList, HTTP.always, h.read, hs, hparse, hsucc, hd, hu]
  · rcases hu : J.unmarshalData raw dst with ⟨d', oe⟩
    rw [hu] at hdec
    cases oe with
    | none => exact absurd rfl hdec
    | some e => simp [Client.getList, HTTP.always, h.read, hs, hparse, hsucc, hd, hu]

/-- The caller's steps after `getList` (plugins.go lines 12 to 19) meet the
list contract. -/
theorem listContract_of_getList {T : Type} (c : Client) (H : HTTP) (w : World) (path : String)
    (resp : Response) (envelope : apiResponse) (hstatus : resp.StatusCode < 400)
    (op : JSON (Option (List T)) → ListReturn T)
    (hop : ∀ J, op J =
      match (c.getList H J w path none).err with
      | some err => ⟨(c.getList H J w path none).world, ⟨none, none⟩, some err⟩
      | none =>
        ⟨(c.getList H J w path none).world,
          ⟨if (c.getList H J w path none).dst.isNone then some []
            else (c.getList H J w path none).dst,
           (c.getList H J w path none).pag⟩, none⟩) :
    ListContract c H path resp envelope op := by
  intro J h hparse hsucc
  have hg := getList_success h J w (none : Option (List T)) hstatus hparse hsucc
  rw [hop J]
  refine ⟨fun hdata => ?_, fun herr => ?_⟩
  · rcases hdata with hd | ⟨hd, hnull⟩
    · obtain ⟨h1, h2, h3⟩ := hg.1 hd
      simp [h1, h2, h3]
    · obtain ⟨h1, h2, h3⟩ := (hg.2 "null" hd).1 (by rw [hnull])
      rw [hnull] at h2
      simp [h1, h2, h3]
  · cases hd : envelope.Data with
    | none =>
      obtain ⟨h1, h2, h3⟩ := hg.1 hd
      simp [h1, h2, h3]
    | some raw =>
      cases hdec : (J.unmarshalData raw none).2 with
      | none =>
        obtain ⟨h1, h2, h3⟩ := (hg.2 raw hd).1 hdec
        simp only [h1, h3]
        refine ⟨trivial, ?_⟩
        cases (c.getList H J w path none).dst <;> simp
      | some e =>
        have hne := (hg.2 raw hd).2 (by rw [hdec]; simp)
        cases hge : (c.getList H J w path none).err with
        | none => exact absurd hge hne
        | some e2 => rw [hge] at herr; simp at herr

/-- Claim C7 (`ListPlugins`, `ListVersions`, `ListReviews`,
`ListPublisherPlugins`).  On every response with status below 400 whose
envelope has `success` true, each of the four paginated list operations meets
`ListContract`: when `data` is null or absent the returned `Items` is the
empty non-nil slice, and whenever a result is returned its `Pagination` is
exactly the envelope's pagination object (nil when the envelope has none). -/
theorem C7_list_empty_items_and_pagination (c : Client) (H : HTTP) (w : World)
    (opts : Option ListOptions) (pluginID slug : String) (resp : Response)
    (envelope : apiResponse) (hstatus : resp.StatusCode < 400) :
    ListContract c H ("/v1/plugins" ++ ListOptions.buildQuery opts) resp envelope
      (fun J => c.ListPlugins H J w opts) ∧
    ListContract c H ("/v1/plugins/" ++ pluginID ++ "/versions" ++ ListOptions.buildQuery opts)
      resp envelope (fun J => c.ListVersions H J w pluginID opts) ∧
    ListContract c H ("/v1/plugins/" ++ pluginID ++ "/reviews" ++ ListOptions.buildQuery opts)
      resp envelope (fun J => c.ListReviews H J w pluginID opts) ∧
    ListContract c H ("/v1/publishers/" ++ slug ++ "/plugins" ++ ListOptions.buildQuery opts)
      resp envelope (fun J => c.ListPublisherPlugins H J w slug opts) := by
  refine ⟨?_, ?_, ?_, ?_⟩ <;>
    refine listContract_of_getList c H w _ resp envelope hstatus _ (fun J => ?_)
  · simp only [Client.ListPlugins]
  · simp only [Client.ListVersions]
  · simp only [Client.ListReviews]
  · simp only [Client.ListPublisherPlugins]

/-- Witness for C7: `ListPlugins` without options, answered with status 200,
`success` true, `data` null and a pagination object. -/
theorem C7_list_empty_items_and_pagination_witness :
    (demoClient.ListPlugins (HTTP.always (demoResponse 200
        "\x7b\"success\":true,\"data\":null,\"pagination\":\x7b\"page\":1,\"per_page\":10,\"total\":0,\"total_pages\":0\x7d\x7d"))
        (demoSliceJSON Plugin) World.init none).err = none ∧
    (demoClient.ListPlugins (HTTP.always (demoResponse 200
        "\x7b\"success\":true,\"data\":null,\"pagination\":\x7b\"page\":1,\"per_page\":10,\"total\":0,\"total_pages\":0\x7d\x7d"))
        (demoSliceJSON Plugin) World.init none).result.Items = some [] ∧
    (demoClient.ListPlugins (HTTP.always (demoResponse 200
        "\x7b\"success\":true,\"data\":null,\"pagination\":\x7b\"page\":1,\"per_page\":10,\"total\":0,\"total_pages\":0\x7d\x7d"))
        (demoSliceJSON Plugin) World.init none).result.Pagination = some ⟨1, 10, 0, 0⟩ :=
  ((C7_list_empty_items_and_pagination demoClient
    (HTTP.always (demoResponse 200
      "\x7b\"success\":true,\"data\":null,\"pagination\":\x7b\"page\":1,\"per_page\":10,\"total\":0,\"total_pages\":0\x7d\x7d"))
    World.init none "test-plugin" "omniview"
    (demoResponse 200
      "\x7b\"success\":true,\"data\":null,\"pagination\":\x7b\"page\":1,\"per_page\":10,\"total\":0,\"total_pages\":0\x7d\x7d")
    ⟨true, some "null", "", some ⟨1, 10, 0, 0⟩⟩ (by decide)).1
    (demoSliceJSON Plugin) ⟨rfl, rfl, rfl⟩ rfl rfl).1 (Or.inr ⟨rfl, rfl⟩)

/-- Claim C8, the code at the failing inputs.  `ListCategories` answered with
status 200 and `success` true without `data`, and `GetDailyDownloads` answered
with status 200, `success` true and `data` null, both return the nil slice
with a nil error, where `ListPlugins` on the same answers returns the empty
non-nil slice. -/
theorem C8_get_lists_return_nil :
    ((demoClient.ListCategories (HTTP.always (demoResponse 200 "\x7b\"success\":true\x7d"))
        (demoSliceJSON CategoryCount) World.init).items = none ∧
      (demoClient.ListCategories (HTTP.always (demoResponse 200 "\x7b\"success\":true\x7d"))
        (demoSliceJSON CategoryCount) World.init).err = none) ∧
    ((demoClient.GetDailyDownloads
        (HTTP.always (demoResponse 200 "\x7b\"success\":true,\"data\":null\x7d"))
        (demoSliceJSON DailyDownloads) World.init "test-plugin" 7).items = none ∧
      (demoClient.GetDailyDownloads
        (HTTP.always (demoResponse 200 "\x7b\"success\":true,\"data\":null\x7d"))
        (demoSliceJSON DailyDownloads) World.init "test-plugin" 7).err = none) ∧
    ((demoClient.ListPlugins (HTTP.always (demoResponse 200 "\x7b\"success\":true\x7d"))
        (demoSliceJSON Plugin) World.init none).result.Items = some [] ∧
      (demoClient.ListPlugins
        (HTTP.always (demoResponse 200 "\x7b\"success\":true,\"data\":null\x7d"))
        (demoSliceJSON Plugin) World.init none).result.Items = some []) := by
  refine ⟨⟨rfl, rfl⟩, ⟨rfl, rfl⟩, ⟨rfl, rfl⟩⟩

/-! ## Status 404 -/

/-- At status 400 or above `do` returns an `APIError` carrying the status. -/
theorem do_error_of_status {D : Type} {c : Client} {T : HTTP} {method path : String}
    {body : Option String} {resp : Response} (h : c.Receives T method path body resp)
    (J : JSON D) (w : World) (dst : Option D) (hstatus : resp.StatusCode ≥ 400) :
    ∃ msg, (c.do_ T J w method path body dst).err = some (.api ⟨resp.StatusCode, msg⟩) := by
  rw [do_of_receives h]
  cases hp : J.unmarshalEnvelope resp.Body with
  | error e => exact ⟨resp.Body, by simp [Client.do_, HTTP.always, h.read, hstatus, hp]⟩
  | ok envelope =>
    by_cases hm : envelope.Message = ""
    · exact ⟨resp.Body, by simp [Client.do_, HTTP.always, h.read, hstatus, hp, hm]⟩
    · exact ⟨envelope.Message, by simp [Client.do_, HTTP.always, h.read, hstatus, hp, hm]⟩

/-- At status 400 or above `getList` returns an `APIError` carrying the
status. -/
theorem getList_error_of_status {D : Type} {c : Client} {T : HTTP} {path : String}
    {resp : Response} (h : c.Receives T "GET" path none resp)
    (J : JSON D) (w : World) (dst : D) (hstatus : resp.StatusCode ≥ 400) :
    ∃ msg, (c.getList T J w path dst).err = some (.api ⟨resp.StatusCode, msg⟩) := by
  rw [getList_of_receives h]
  cases hp : J.unmarshalEnvelope resp.Body with
  | error e => exact ⟨resp.Body, by simp [Client.getList, HTTP.always, h.read, hstatus, hp]⟩
  | ok envelope =>
    by_cases hm : envelope.Message = ""
    · exact ⟨resp.Body, by simp [Client.getList, HTTP.always, h.read, hstatus, hp, hm]⟩
    · exact ⟨envelope.Message,
        by simp [Client.getList, HTTP.always, h.read, hstatus, hp, hm]⟩

/-- Claim C9 (`Client.do`, `Client.getList`, `GetPlugin`, `DownloadPlugin`).  On
every response with status 404, whatever its body, `do` and `getList` return
an `APIError` with status 404, on which `IsNotFound` is true; so does
`GetPlugin`; and `DownloadPlugin`, whose `GetVersion` step gets the 404,
returns that `APIError` wrapped with "getting version info" and an empty
path, and `IsNotFound` is still true on it. -/
theorem C9_status_404_is_not_found (c : Client) (H : HTTP) (w : World) (resp : Response)
    (hstatus : resp.StatusCode = 404) :
    (∀ (D : Type) (J : JSON D) (method path : String) (body : Option String) (dst : Option D),
      c.Receives H method path body resp →
      (∃ msg, (c.do_ H J w method path body dst).err = some (.api ⟨404, msg⟩)) ∧
      IsNotFound (c.do_ H J w method path body dst).err = true) ∧
    (∀ (D : Type) (J : JSON D) (path : String) (dst : D),
      c.Receives H "GET" path none resp →
      (∃ msg, (c.getList H J w path dst).err = some (.api ⟨404, msg⟩)) ∧
      IsNotFound (c.getList H J w path dst).err = true) ∧
    (∀ (J : JSON Plugin) (pluginID : String),
      c.Receives H "GET" ("/v1/plugins/" ++ pluginID) none resp →
      ∃ msg, (c.GetPlugin H J w pluginID).ret = .error (.api ⟨404, msg⟩) ∧
        IsNotFound (some (.api ⟨404, msg⟩)) = true) ∧
    (∀ (J : JSON PluginVersion) (S : Host) (verify : String → String → Option GoError)
      (pluginID version : String),
      c.Receives H "GET" ("/v1/plugins/" ++ pluginID ++ "/versions/" ++ version) none resp →
      (∃ msg, (c.DownloadPlugin H J S verify w pluginID version).err
          = some (.wrap "getting version info" (.api ⟨404, msg⟩))) ∧
      (c.DownloadPlugin H J S verify w pluginID version).value = "" ∧
      IsNotFound (c.DownloadPlugin H J S verify w pluginID version).err = true) := by
  have hs : resp.StatusCode ≥ 400 := by omega
  refine ⟨fun D J method path body dst h => ?_, fun D J path dst h => ?_,
    fun J pluginID h => ?_, fun J S verify pluginID version h => ?_⟩
  · obtain ⟨msg, hm⟩ := do_error_of_status h J w dst hs
    rw [hstatus] at hm
    exact ⟨⟨msg, hm⟩, by rw [hm]; rfl⟩
  · obtain ⟨msg, hm⟩ := getList_error_of_status h J w dst hs
    rw [hstatus] at hm
    exact ⟨⟨msg, hm⟩, by rw [hm]; rfl⟩
  · obtain ⟨msg, hm⟩ := do_error_of_status h J w (some Plugin.zero) hs
    rw [hstatus] at hm
    exact ⟨msg, by simp only [Client.GetPlugin, Client.get, hm], rfl⟩
  · obtain ⟨msg, hm⟩ := do_error_of_status h J w (some PluginVersion.zero) hs
    rw [hstatus] at hm
    have hd : c.DownloadPlugin H J S verify w pluginID version =
        ⟨(c.do_ H J w "GET" ("/v1/plugins/" ++ pluginID ++ "/versions/" ++ version) none
            (some PluginVersion.zero)).world, "",
          some (.wrap "getting version info" (.api ⟨404, msg⟩))⟩ := by
      simp only [Client.DownloadPlugin, Client.GetVersion, Client.get, hm]
    rw [hd]
    exact ⟨⟨msg, rfl⟩, rfl, rfl⟩

/-- Witness for C9: `GetPlugin("nonexistent")` and
`DownloadPlugin("nonexistent", "1.0.0")` against a server answering with the
plain-text 404 page. -/
theorem C9_status_404_is_not_found_witness :
    (∃ msg, (demoClient.GetPlugin (HTTP.always (demoResponse 404 "404 page not found\n"))
        (demoStructJSON Plugin) World.init "nonexistent").ret = .error (.api ⟨404, msg⟩) ∧
      IsNotFound (some (.api ⟨404, msg⟩)) = true) ∧
    IsNotFound (demoClient.DownloadPlugin (HTTP.always (demoResponse 404 "404 page not found\n"))
        (demoStructJSON PluginVersion) demoHost demoVerify World.init "nonexistent"
        "1.0.0").err = true :=
  ⟨(C9_status_404_is_not_found demoClient
      (HTTP.always (demoResponse 404 "404 page not found\n")) World.init
      (demoResponse 404 "404 page not found\n") rfl).2.2.1
      (demoStructJSON Plugin) "nonexistent" ⟨rfl, rfl, rfl⟩,
    ((C9_status_404_is_not_found demoClient
      (HTTP.always (demoResponse 404 "404 page not found\n")) World.init
      (demoResponse 404 "404 page not found\n") rfl).2.2.2
      (demoStructJSON PluginVersion) demoHost demoVerify "nonexistent" "1.0.0"
      ⟨rfl, rfl, rfl⟩).2.2⟩

/-! ## `getList` against `do` -/

/-- Claim C20 (`Client.getList` against `Client.do`).  For every transport,
JSON library, status and body, `getList(path, dst)` returns exactly the error
of `do(GET, path, nil, dst)` with the same non-nil `dst` (nil exactly when
`do` returns nil), leaves the same value in `dst` and hands the same request to
the transport; when it returns an error its pagination is nil, and when it
returns no error on a response whose body parses as `envelope`, its pagination
is the envelope's. -/
theorem C20_getList_agrees_with_do {D : Type} (c : Client) (T : HTTP) (J : JSON D)
    (w : World) (path : String) (dst : D) :
    (c.getList T J w path dst).err = (c.do_ T J w "GET" path none (some dst)).err ∧
    some (c.getList T J w path dst).dst = (c.do_ T J w "GET" path none (some dst)).dst ∧
    (c.getList T J w path dst).world = (c.do_ T J w "GET" path none (some dst)).world ∧
    ((c.getList T J w path dst).err ≠ none → (c.getList T J w path dst).pag = none) ∧
    (∀ resp envelope, c.Receives T "GET" path none resp →
      J.unmarshalEnvelope resp.Body = .ok envelope →
      (c.getList T J w path dst).err = none →
      (c.getList T J w path dst).pag = envelope.Pagination) := by
  refine ⟨?_, ?_, ?_, ?_, ?_⟩
  · simp only [Client.getList, Client.do_, Option.isSome_none, Bool.false_eq_true, if_false]
    repeat' split
    all_goals simp_all
  · simp only [Client.getList, Client.do_, Option.isSome_none, Bool.false_eq_true, if_false]
    repeat' split
    all_goals simp_all
  · simp only [Client.getList, Client.do_, Option.isSome_none, Bool.false_eq_true, if_false]
    repeat' split
    all_goals simp_all
  · simp only [Client.getList]
    repeat' split
    all_goals simp_all
  · intro resp envelope h hparse
    rw [getList_of_receives h]
    simp only [Client.getList, HTTP.always, h.read, hparse]
    repeat' split
    all_goals simp_all

/-- Witness for C20: a 200 answer with `success` true, `data` null and a
pagination object; `getList` returns that pagination and, like `do`, no
error. -/
theorem C20_getList_agrees_with_do_witness :
    (demoClient.getList (HTTP.always (demoResponse 200
        "\x7b\"success\":true,\"data\":null,\"pagination\":\x7b\"page\":1,\"per_page\":10,\"total\":0,\"total_pages\":0\x7d\x7d"))
        demoJSON World.init "/v1/plugins" none).pag = some ⟨1, 10, 0, 0⟩ :=
  (C20_getList_agrees_with_do demoClient
    (HTTP.always (demoResponse 200
      "\x7b\"success\":true,\"data\":null,\"pagination\":\x7b\"page\":1,\"per_page\":10,\"total\":0,\"total_pages\":0\x7d\x7d"))
    demoJSON World.init "/v1/plugins" none).2.2.2.2
    (demoResponse 200
      "\x7b\"success\":true,\"data\":null,\"pagination\":\x7b\"page\":1,\"per_page\":10,\"total\":0,\"total_pages\":0\x7d\x7d")
    ⟨true, some "null", "", some ⟨1, 10, 0, 0⟩⟩ ⟨rfl, rfl, rfl⟩ rfl rfl

/-! ## downloads.go: `GetDownloadURL` -/

/-- Claim C16 (`Client.GetDownloadURL`).  Once the request is built and the
non-following transport answers it with `resp`: for status 302 or 307 the
result is the `Location` header value with a nil error; for every status at or
above 400 it is the `APIError` carrying that status; for every other status
(every 2xx, the other 3xx, 1xx) it is an error that is not and does not wrap an
`APIError`.  Exactly one request is sent and the body is never decoded. -/
theorem C16_GetDownloadURL_by_status (c : Client) (H : HTTP) (w : World)
    (pluginID version arch : String) (resp : Response)
    (hbuilt : H.NewRequest "GET"
      (c.baseURL ++ ("/v1/plugins/" ++ pluginID ++ "/download/" ++ version ++ "/" ++ arch))
      = none)
    (hanswered : H.DoNoFollow ⟨"GET",
      c.baseURL ++ ("/v1/plugins/" ++ pluginID ++ "/download/" ++ version ++ "/" ++ arch),
      [], none⟩ = .ok resp) :
    ((resp.StatusCode = 302 ∨ resp.StatusCode = 307) →
      (c.GetDownloadURL H w pluginID version arch).value = headerGet resp.Header "Location" ∧
      (c.GetDownloadURL H w pluginID version arch).err = none) ∧
    (resp.StatusCode ≥ 400 →
      (c.GetDownloadURL H w pluginID version arch).value = "" ∧
      (c.GetDownloadURL H w pluginID version arch).err
        = some (.api ⟨resp.StatusCode, "download not available"⟩)) ∧
    (resp.StatusCode ≠ 302 → resp.StatusCode ≠ 307 → resp.StatusCode < 400 →
      (c.GetDownloadURL H w pluginID version arch).value = "" ∧
      ∃ e, (c.GetDownloadURL H w pluginID version arch).err = some e ∧
        errorsAs e = none ∧ apiErrors e = [] ∧ IsNotFound (some e) = false) ∧
    (c.GetDownloadURL H w pluginID version arch).world.sent = w.sent ++ [⟨"GET",
      c.baseURL ++ ("/v1/plugins/" ++ pluginID ++ "/download/" ++ version ++ "/" ++ arch),
      [], none⟩] ∧
    (c.GetDownloadURL H w pluginID version arch).world.files = w.files := by
  refine ⟨fun h => ?_, fun h => ?_, fun h1 h2 h3 => ?_, ?_, ?_⟩
  · simp [Client.GetDownloadURL, hbuilt, hanswered, h]
  · have h1 : ¬ (resp.StatusCode = 302 ∨ resp.StatusCode = 307) := by omega
    simp [Client.GetDownloadURL, hbuilt, hanswered, h1, h]
  · have h4 : ¬ resp.StatusCode ≥ 400 := by omega
    have h5 : ¬ (400 ≤ resp.StatusCode) := by omega
    refine ⟨by simp [Client.GetDownloadURL, hbuilt, hanswered, h1, h2, h5],
      .foreign ("unexpected status " ++ toString resp.StatusCode ++ " from download endpoint"),
      by simp [Client.GetDownloadURL, hbuilt, hanswered, h1, h2, h5], rfl, rfl, rfl⟩
  · simp only [Client.GetDownloadURL, hbuilt, hanswered]
    repeat' split
    all_goals rfl
  · simp only [Client.GetDownloadURL, hbuilt, hanswered]
    repeat' split
    all_goals rfl

/-- Witness for C16: the download endpoint answers with 302 and a `Location`
header. -/
theorem C16_GetDownloadURL_by_status_witness :
    (demoClient.GetDownloadURL
        ⟨fun _ _ => none, fun _ => .ok (demoResponse 404 ""),
          fun _ => .ok ⟨302, [("Location", "https://cdn.omniview.dev/demo.tar.gz")], "", none⟩⟩
        World.init "demo" "1.0.0" "linux_amd64").value
      = "https://cdn.omniview.dev/demo.tar.gz" ∧
    (demoClient.GetDownloadURL
        ⟨fun _ _ => none, fun _ => .ok (demoResponse 404 ""),
          fun _ => .ok ⟨302, [("Location", "https://cdn.omniview.dev/demo.tar.gz")], "", none⟩⟩
        World.init "demo" "1.0.0" "linux_amd64").err = none :=
  (C16_GetDownloadURL_by_status demoClient
    ⟨fun _ _ => none, fun _ => .ok (demoResponse 404 ""),
      fun _ => .ok ⟨302, [("Location", "https://cdn.omniview.dev/demo.tar.gz")], "", none⟩⟩
    World.init "demo" "1.0.0" "linux_amd64"
    ⟨302, [("Location", "https://cdn.omniview.dev/demo.tar.gz")], "", none⟩ rfl rfl).1
    (Or.inl rfl)

/-! ## Request headers -/

/-- The requests `do` hands to the transport: none if the request cannot be
built, else the one request `requestOf` describes. -/
theorem do_sent {D : Type} (c : Client) (T : HTTP) (J : JSON D) (w : World)
    (method path : String) (body : Option String) (dst : Option D) :
    (c.do_ T J w method path body dst).world.sent =
      (if T.NewRequest method (c.baseURL ++ path) = none
        then w.sent ++ [c.requestOf method path body] else w.sent) ∧
    (c.do_ T J w method path body dst).world.files = w.files := by
  constructor
  · simp only [Client.do_, Client.requestOf]
    repeat' split
    all_goals simp_all [World.send]
  · simp only [Client.do_]
    repeat' split
    all_goals simp_all [World.send]

/-- The world `getList` leaves is the world `do` leaves on the same GET. -/
theorem getList_world {D : Type} (c : Client) (T : HTTP) (J : JSON D) (w : World)
    (path : String) (dst : D) :
    (c.getList T J w path dst).world = (c.do_ T J w "GET" path none (some dst)).world := by
  simp only [Client.getList, Client.do_, Option.isSome_none, Bool.false_eq_true, if_false]
  repeat' split
  all_goals simp_all

/-- Claim C18 (`Client.do`, `Client.get`, `Client.post`, `Client.getList`).
The request `do` hands to the transport is `requestOf method path body`, whose
headers are exactly: `Content-Type: application/json` if and only if a body is
supplied, and `Authorization: Bearer <token>` if and only if the token is
non-empty.  So `get` never sets `Content-Type`; `post` sets it exactly when its
body argument is non-nil (and marshals; otherwise no request is made at all);
`getList` sends the same request as `get`: `Authorization` by the same rule,
never `Content-Type`. -/
theorem C18_request_headers {D : Type} (c : Client) (T : HTTP) (J : JSON D) (w : World)
    (method path : String) (body : Option String) :
    (∀ dst : Option D, (c.do_ T J w method path body dst).world.sent =
      (if T.NewRequest method (c.baseURL ++ path) = none
        then w.sent ++ [c.requestOf method path body] else w.sent)) ∧
    (c.requestOf method path body).Header =
      (if body.isSome then [("Content-Type", "application/json")] else []) ++
      (if c.token ≠ "" then [("Authorization", "Bearer " ++ c.token)] else []) ∧
    ((c.requestOf method path body).Header.lookup "Authorization" =
      if c.token ≠ "" then some ("Bearer " ++ c.token) else none) ∧
    ((c.requestOf method path body).Header.lookup "Content-Type" =
      if body.isSome then some "application/json" else none) ∧
    (∀ dst : Option D, (c.get T J w path dst).world.sent =
      (if T.NewRequest "GET" (c.baseURL ++ path) = none
        then w.sent ++ [c.requestOf "GET" path none] else w.sent)) ∧
    (c.requestOf "GET" path none).Header.lookup "Content-Type" = none ∧
    (∀ (B : Type) (marshal : B → Except String String) (dst : Option D),
      (c.post T J w marshal path none dst).world.sent =
        (if T.NewRequest "POST" (c.baseURL ++ path) = none
          then w.sent ++ [c.requestOf "POST" path none] else w.sent) ∧
      (c.requestOf "POST" path none).Header.lookup "Content-Type" = none ∧
      (∀ b data, marshal b = .ok data →
        (c.post T J w marshal path (some b) dst).world.sent =
          (if T.NewRequest "POST" (c.baseURL ++ path) = none
            then w.sent ++ [c.requestOf "POST" path (some data)] else w.sent) ∧
        (c.requestOf "POST" path (some data)).Header.lookup "Content-Type"
          = some "application/json") ∧
      (∀ b e, marshal b = .error e →
        (c.post T J w marshal path (some b) dst).world.sent = w.sent)) ∧
    (∀ dst : D, (c.getList T J w path dst).world.sent =
      (if T.NewRequest "GET" (c.baseURL ++ path) = none
        then w.sent ++ [c.requestOf "GET" path none] else w.sent)) := by
  have hhdr : ∀ (m p : String) (b : Option String), (c.requestOf m p b).Header =
      (if b.isSome then [("Content-Type", "application/json")] else []) ++
      (if c.token ≠ "" then [("Authorization", "Bearer " ++ c.token)] else []) := by
    intro m p b
    by_cases ht : c.token = "" <;> cases b <;>
      simp [Client.requestOf, Request.setHeader, ht]
  have hct : ∀ (m p : String) (b : Option String),
      (c.requestOf m p b).Header.lookup "Content-Type" =
        if b.isSome then some "application/json" else none := by
    intro m p b
    rw [hhdr]
    by_cases ht : c.token = "" <;> cases b <;> simp [ht, List.lookup]
  refine ⟨fun dst => (do_sent c T J w method path body dst).1, hhdr _ _ _, ?_, hct _ _ _,
    fun dst => (do_sent c T J w "GET" path none dst).1, by simpa using hct "GET" path none,
    fun B marshal dst => ⟨?_, by simpa using hct "POST" path none, fun b data hm => ⟨?_, ?_⟩,
      fun b e hm => ?_⟩, fun dst => ?_⟩
  · rw [hhdr]
    by_cases ht : c.token = "" <;> cases body <;> simp [ht, List.lookup]
  · simpa only [Client.post] using (do_sent c T J w "POST" path none dst).1
  · simpa only [Client.post, hm] using (do_sent c T J w "POST" path (some data) dst).1
  · simpa using hct "POST" path (some data)
  · simp only [Client.post, hm]
  · rw [getList_world]
    exact (do_sent c T J w "GET" path none (some dst)).1

/-- Witness for C18: an authenticated POST with a body carries both headers,
`Content-Type` first. -/
theorem C18_request_headers_witness :
    (Client.post ⟨"https://api.omniview.dev", "test-token"⟩
        (HTTP.always (demoResponse 200 "\x7b\"success\":true\x7d")) demoUnitJSON World.init
        demoMarshal "/v1/plugins/test-plugin/reviews" (some [("rating", "5")]) none).world.sent
      = [⟨"POST", "https://api.omniview.dev/v1/plugins/test-plugin/reviews",
          [("Content-Type", "application/json"), ("Authorization", "Bearer test-token")],
          some "\x7b\"rating\":\"5\"\x7d"⟩] :=
  (((C18_request_headers ⟨"https://api.omniview.dev", "test-token"⟩
      (HTTP.always (demoResponse 200 "\x7b\"success\":true\x7d")) demoUnitJSON World.init
      "POST" "/v1/plugins/test-plugin/reviews" none).2.2.2.2.2.2.1
      (List (String × String)) demoMarshal none).2.2.1
      [("rating", "5")] "\x7b\"rating\":\"5\"\x7d" rfl).1

/-! ## Files and the request log -/

/-- Removing a path from a file list leaves no entry under it. -/
theorem lookup_filter_ne (p : String) (fs : List (String × String)) :
    (fs.filter (fun f => f.1 != p)).lookup p = none := by
  induction fs with
  | nil => rfl
  | cons f fs ih =>
    obtain ⟨a, b⟩ := f
    by_cases h : a = p
    · simp [List.filter_cons, h, ih]
    · have h2 : (p == a) = false := by
        simp only [beq_eq_false_iff_ne, ne_eq]
        exact fun h3 => h h3.symm
      simp only [List.filter_cons, bne_iff_ne, ne_eq, h, not_false_eq_true, if_true,
        List.lookup_cons, h2, ih]

/-- Appending to the file at `p` changes nothing in a list without `p`. -/
theorem map_append_filter_ne (p d : String) (fs : List (String × String)) :
    (fs.filter (fun f => f.1 != p)).map (fun f => if f.1 = p then (f.1, f.2 ++ d) else f)
      = fs.filter (fun f => f.1 != p) := by
  induction fs with
  | nil => rfl
  | cons f fs ih =>
    obtain ⟨a, b⟩ := f
    by_cases h : a = p
    · simp [List.filter_cons, h, ih]
    · simp only [List.filter_cons, bne_iff_ne, ne_eq, h, not_false_eq_true, if_true,
        List.map_cons, if_false, ih]

/-- After `os.Remove` the file is gone. -/
theorem readFile_removeFile (w : World) (p : String) : (w.removeFile p).readFile p = none := by
  simp only [World.readFile, World.removeFile, lookup_filter_ne]

/-- Creating, writing and removing the temp file leaves the other files. -/
theorem files_create_append_remove (w : World) (p d : String) (req : Request) :
    ((((w.createFile p).send req).appendFile p d).removeFile p).files
      = w.files.filter (fun f => f.1 != p) ∧
    (((w.createFile p).send req).removeFile p).files = w.files.filter (fun f => f.1 != p) ∧
    ((w.createFile p).removeFile p).files = w.files.filter (fun f => f.1 != p) := by
  refine ⟨?_, ?_, ?_⟩
  · simp only [World.createFile, World.send, World.appendFile, World.removeFile, List.map_cons,
      map_append_filter_ne]
    simp [List.filter]
  · simp [World.createFile, World.send, World.removeFile, List.filter]
  · simp [World.createFile, World.removeFile, List.filter]

/-- After the streaming step the temp file holds exactly the body. -/
theorem readFile_create_append (w : World) (p d : String) (req : Request) :
    (((w.createFile p).send req).appendFile p d).readFile p = some d := by
  simp only [World.createFile, World.send, World.appendFile, World.readFile, List.map_cons,
    if_true, List.lookup_cons, beq_self_eq_true, String.empty_append]

/-- The method `GetVersion` touches no file; when it succeeds it has sent exactly its one
request. -/
theorem getVersion_world (c : Client) (H : HTTP) (J : JSON PluginVersion) (w : World)
    (pluginID version : String) :
    (c.GetVersion H J w pluginID version).world.files = w.files ∧
    (∀ v, (c.GetVersion H J w pluginID version).ret = .ok v →
      (c.GetVersion H J w pluginID version).world.sent = w.sent ++
        [c.requestOf "GET" ("/v1/plugins/" ++ pluginID ++ "/versions/" ++ version) none]) := by
  have hs := do_sent c H J w "GET" ("/v1/plugins/" ++ pluginID ++ "/versions/" ++ version)
    none (some PluginVersion.zero)
  constructor
  · simp only [Client.GetVersion, Client.get]
    split <;> exact hs.2
  · intro v hv
    have hw : (c.GetVersion H J w pluginID version).world =
        (c.do_ H J w "GET" ("/v1/plugins/" ++ pluginID ++ "/versions/" ++ version) none
          (some PluginVersion.zero)).world := by
      simp only [Client.GetVersion, Client.get]
      split <;> rfl
    rw [hw, hs.1]
    cases hn : H.NewRequest "GET" (c.baseURL ++
        ("/v1/plugins/" ++ pluginID ++ "/versions/" ++ version)) with
    | none => simp
    | some e =>
      exfalso
      simp [Client.GetVersion, Client.get, Client.do_, hn] at hv

/-- The method `GetDownloadURL` touches no file. -/
theorem getDownloadURL_files (c : Client) (H : HTTP) (w : World)
    (pluginID version arch : String) :
    (c.GetDownloadURL H w pluginID version arch).world.files = w.files := by
  simp only [Client.GetDownloadURL]
  repeat' split
  all_goals rfl

/-- Up to the creation of the temp file no file is touched. -/
theorem located_files (c : Client) (H : HTTP) (J : JSON PluginVersion) (S : Host) (w : World)
    (pluginID version : String) :
    (c.located H J S w pluginID version).world.files = w.files := by
  simp only [Client.located, getDownloadURL_files, (getVersion_world c H J w pluginID version).1]

/-- After the streaming step `DownloadPlugin` is its verification steps 6 and
7 (downloads.go lines 137 to 150). -/
theorem downloadPlugin_of_streamed {c : Client} {H : HTTP} {J : JSON PluginVersion} {S : Host}
    {w : World} {pluginID version : String} {artifact : Artifact} {tmpPath : String}
    {dlResp : Response} (h : c.Streamed H J S w pluginID version artifact tmpPath dlResp)
    (verify : String → String → Option GoError) :
    c.DownloadPlugin H J S verify w pluginID version =
      if S.sha256hex dlResp.Body ≠ artifact.Checksum then
        ⟨(c.streamedWorld H J S w pluginID version tmpPath dlResp).removeFile tmpPath, "",
          some (.wrap ("expected " ++ artifact.Checksum ++ ", got " ++ S.sha256hex dlResp.Body)
            (.sentinel .ErrChecksumMismatch))⟩
      else
        match verify (S.sha256hex dlResp.Body) artifact.Signature with
        | some err =>
          ⟨(c.streamedWorld H J S w pluginID version tmpPath dlResp).removeFile tmpPath, "",
            some (.wrap "signature verification failed" err)⟩
        | none => ⟨c.streamedWorld H J S w pluginID version tmpPath dlResp, tmpPath, none⟩ := by
  obtain ⟨v, hv, hmap⟩ := h.created.fetched
  have h1 := h.created.resolved
  have h2 := h.created.temp
  have h3 := h.built
  have h4 := h.answered
  have h5 : ¬ dlResp.StatusCode ≠ 200 := by simp [h.ok]
  simp only [Client.located, Client.artifactRequest, tempPattern] at h1 h2 h3 h4
  simp only [Client.DownloadPlugin, hv, hmap, h1, h2, h3, h4, h5, h.written, h.read,
    Client.streamedWorld, Client.located, Client.artifactRequest, if_false]

/-! ## downloads.go: `DownloadPlugin`, platform lookup -/

set_option maxRecDepth 100000

/-- Indexing the artifact map finds nothing exactly when no key is equal to
the wanted key. -/
theorem mapIndex_eq_none_iff {V : Type} (m : Option (List (String × V))) (key : String) :
    mapIndex m key = none ↔ ∀ entries, m = some entries → ∀ kv ∈ entries, kv.1 ≠ key := by
  cases m with
  | none => simp [mapIndex]
  | some entries =>
    simp only [mapIndex, Option.some.injEq, forall_eq_apply_imp_iff, forall_eq']
    induction entries with
    | nil => simp [List.lookup]
    | cons kv rest ih =>
      obtain ⟨k, v⟩ := kv
      by_cases hk : key = k
      · subst hk
        simp [List.lookup_cons]
      · have h2 : (key == k) = false := by simpa using hk
        have h3 : ¬ k = key := fun h => hk h.symm
        simp only [List.lookup_cons, h2, ih, List.mem_cons, forall_eq_or_imp, ne_eq, h3,
          not_false_eq_true, true_and]

/-- Claim C11 (`Client.DownloadPlugin`, `CurrentPlatform`).  The platform key
is `GOOS + "_" + GOARCH`, and the artifact lookup finds nothing exactly when no
key of the map is string-equal to it.  For every fetched version metadata
whose artifact map has no entry under that key, `DownloadPlugin` fails with an
error that wraps `ErrNoPlatformArtifact` and returns no path; the only request
sent is the version request (so neither the download-URL request nor the
artifact request is made) and no file is created. -/
theorem C11_no_platform_artifact (c : Client) (H : HTTP) (J : JSON PluginVersion) (S : Host)
    (verify : String → String → Option GoError) (w : World) (pluginID version : String)
    (v : PluginVersion)
    (hv : (c.GetVersion H J w pluginID version).ret = .ok v) :
    CurrentPlatform S = S.GOOS ++ "_" ++ S.GOARCH ∧
    (mapIndex v.Artifacts (CurrentPlatform S) = none ↔
      ∀ entries, v.Artifacts = some entries → ∀ kv ∈ entries, kv.1 ≠ CurrentPlatform S) ∧
    ((∀ entries, v.Artifacts = some entries → ∀ kv ∈ entries, kv.1 ≠ CurrentPlatform S) →
      (∃ e, (c.DownloadPlugin H J S verify w pluginID version).err = some e ∧
        errorsIs e .ErrNoPlatformArtifact = true) ∧
      (c.DownloadPlugin H J S verify w pluginID version).value = "" ∧
      (c.DownloadPlugin H J S verify w pluginID version).world.sent = w.sent ++
        [c.requestOf "GET" ("/v1/plugins/" ++ pluginID ++ "/versions/" ++ version) none] ∧
      (c.DownloadPlugin H J S verify w pluginID version).world.files = w.files) := by
  refine ⟨rfl, mapIndex_eq_none_iff _ _, fun hno => ?_⟩
  have hmap := (mapIndex_eq_none_iff v.Artifacts (CurrentPlatform S)).2 hno
  have hd : c.DownloadPlugin H J S verify w pluginID version =
      ⟨(c.GetVersion H J w pluginID version).world, "",
        some (.wrap (CurrentPlatform S) (.sentinel .ErrNoPlatformArtifact))⟩ := by
    simp only [Client.DownloadPlugin, hv, hmap]
  have hw := getVersion_world c H J w pluginID version
  rw [hd]
  exact ⟨⟨_, rfl, rfl⟩, rfl, hw.2 v hv, hw.1⟩

/-- Witness for C11 (scenario B): on linux/amd64, a version whose artifact map
has the keys `windows_amd64`, `linux`, `Linux_amd64` and `linux_amd64_v2`. -/
theorem C11_no_platform_artifact_witness :
    (∃ e, (demoClient.DownloadPlugin
        (demoRegistry demoOtherArtifacts demoLocation (demoResponse 200 "plugin-bytes"))
        (demoVersionJSON demoOtherArtifacts) demoHost demoVerify World.init "demo" "1.0.0").err
        = some e ∧ errorsIs e .ErrNoPlatformArtifact = true) ∧
    (demoClient.DownloadPlugin
        (demoRegistry demoOtherArtifacts demoLocation (demoResponse 200 "plugin-bytes"))
        (demoVersionJSON demoOtherArtifacts) demoHost demoVerify World.init "demo" "1.0.0").value
      = "" ∧
    (demoClient.DownloadPlugin
        (demoRegistry demoOtherArtifacts demoLocation (demoResponse 200 "plugin-bytes"))
        (demoVersionJSON demoOtherArtifacts) demoHost demoVerify World.init "demo"
        "1.0.0").world.sent
      = [⟨"GET", "https://api.omniview.dev/v1/plugins/demo/versions/1.0.0", [], none⟩] ∧
    (demoClient.DownloadPlugin
        (demoRegistry demoOtherArtifacts demoLocation (demoResponse 200 "plugin-bytes"))
        (demoVersionJSON demoOtherArtifacts) demoHost demoVerify World.init "demo"
        "1.0.0").world.files = [] :=
  (C11_no_platform_artifact demoClient
    (demoRegistry demoOtherArtifacts demoLocation (demoResponse 200 "plugin-bytes"))
    (demoVersionJSON demoOtherArtifacts) demoHost demoVerify World.init "demo" "1.0.0"
    (demoVersion demoOtherArtifacts) rfl).2.2
    (by intro entries h; cases h; decide)

/-! ## downloads.go: `DownloadPlugin`, streaming and verification -/

/-- On a 302 or 307 answer `GetDownloadURL` returns the `Location` value. -/
theorem getDownloadURL_redirect (c : Client) (H : HTTP) (w : World)
    (pluginID version arch : String) (resp : Response)
    (hbuilt : H.NewRequest "GET"
      (c.baseURL ++ ("/v1/plugins/" ++ pluginID ++ "/download/" ++ version ++ "/" ++ arch))
      = none)
    (hanswered : H.DoNoFollow ⟨"GET",
      c.baseURL ++ ("/v1/plugins/" ++ pluginID ++ "/download/" ++ version ++ "/" ++ arch),
      [], none⟩ = .ok resp)
    (hstatus : resp.StatusCode = 302 ∨ resp.StatusCode = 307) :
    (c.GetDownloadURL H w pluginID version arch).value = headerGet resp.Header "Location" ∧
    (c.GetDownloadURL H w pluginID version arch).err = none := by
  simp [Client.GetDownloadURL, hbuilt, hanswered, hstatus]

/-- A registry that serves the artifact lets `DownloadPlugin` stream it. -/
theorem streamed_of_served {c : Client} {H : HTTP} {J : JSON PluginVersion} {S : Host}
    {w : World} {pluginID version : String} {artifact : Artifact} {redirect : Response}
    {tmpPath : String} {dlResp : Response}
    (h : c.Served H J S w pluginID version artifact redirect tmpPath dlResp) :
    c.Streamed H J S w pluginID version artifact tmpPath dlResp := by
  have hu := getDownloadURL_redirect c H (c.GetVersion H J w pluginID version).world
    pluginID version (CurrentPlatform S) redirect h.endpoint h.redirected h.status
  have hval : (c.located H J S w pluginID version).value = headerGet redirect.Header "Location" :=
    hu.1
  refine ⟨⟨h.fetched, hu.2, h.temp⟩, ?_, ?_, h.ok, h.written, h.read⟩
  · rw [hval]; exact h.built
  · simp only [Client.artifactRequest, hval]; exact h.answered

/-- Claim C12 (`Client.DownloadPlugin`, checksum).  Once the body has been
streamed in full, if its hex SHA-256 is not string-equal to the artifact's
checksum (a difference in letter case is a difference), then for every
signature verifier the call fails with an error that wraps
`ErrChecksumMismatch` and returns no path, the temp file is removed (the files
are the initial files without it), and the verifier is not consulted: the
whole result is the same for every verifier. -/
theorem C12_checksum_mismatch (c : Client) (H : HTTP) (J : JSON PluginVersion) (S : Host)
    (w : World) (pluginID version : String) (artifact : Artifact) (tmpPath : String)
    (dlResp : Response)
    (h : c.Streamed H J S w pluginID version artifact tmpPath dlResp)
    (hne : S.sha256hex dlResp.Body ≠ artifact.Checksum)
    (verify : String → String → Option GoError) :
    (∃ e, (c.DownloadPlugin H J S verify w pluginID version).err = some e ∧
      errorsIs e .ErrChecksumMismatch = true) ∧
    (c.DownloadPlugin H J S verify w pluginID version).value = "" ∧
    (c.DownloadPlugin H J S verify w pluginID version).world.readFile tmpPath = none ∧
    (c.DownloadPlugin H J S verify w pluginID version).world.files
      = w.files.filter (fun f => f.1 != tmpPath) ∧
    (∀ verify2 : String → String → Option GoError,
      c.DownloadPlugin H J S verify2 w pluginID version
        = c.DownloadPlugin H J S verify w pluginID version) := by
  have hd : ∀ vf : String → String → Option GoError,
      c.DownloadPlugin H J S vf w pluginID version =
        ⟨(c.streamedWorld H J S w pluginID version tmpPath dlResp).removeFile tmpPath, "",
          some (.wrap ("expected " ++ artifact.Checksum ++ ", got " ++ S.sha256hex dlResp.Body)
            (.sentinel .ErrChecksumMismatch))⟩ := by
    intro vf
    rw [downloadPlugin_of_streamed h vf, if_pos hne]
  rw [hd verify]
  refine ⟨⟨_, rfl, rfl⟩, rfl, readFile_removeFile _ _, ?_, fun verify2 => hd verify2⟩
  simp only [Client.streamedWorld]
  rw [(files_create_append_remove _ _ _ _).1, located_files]

/-- Witness for C12 (scenario C): the digest of the streamed bytes is `c1`, the
metadata says `C1`. -/
theorem C12_checksum_mismatch_witness :
    (∃ e, (demoDownload "C1" "sig(c1)" (demoResponse 200 "plugin-bytes") demoVerify).err
      = some e ∧ errorsIs e .ErrChecksumMismatch = true) ∧
    (demoDownload "C1" "sig(c1)" (demoResponse 200 "plugin-bytes") demoVerify).value = "" ∧
    (demoDownload "C1" "sig(c1)" (demoResponse 200 "plugin-bytes")
      demoVerify).world.readFile demoTemp = none :=
  have h := C12_checksum_mismatch demoClient
    (demoRegistry [("linux_amd64", demoArtifact "C1" "sig(c1)")] demoLocation
      (demoResponse 200 "plugin-bytes"))
    (demoVersionJSON [("linux_amd64", demoArtifact "C1" "sig(c1)")])
    demoHost World.init "demo" "1.0.0" (demoArtifact "C1" "sig(c1)") demoTemp
    (demoResponse 200 "plugin-bytes")
    (@streamed_of_served _ _ _ _ _ _ _ _ demoRedirect _ _
      ⟨⟨demoVersion [("linux_amd64", demoArtifact "C1" "sig(c1)")], rfl, rfl⟩,
        rfl, rfl, Or.inl rfl, rfl, rfl, rfl, rfl, rfl, rfl⟩)
    (by decide) demoVerify
  ⟨h.1, h.2.1, h.2.2.1⟩

/-- Claim C13 (`Client.DownloadPlugin`, success path).  If the version
metadata has the artifact `artifact` for the current platform, the download
endpoint redirects (302 or 307) to a location that answers 200 with a body
that is streamed in full into the temp file, the artifact's checksum equals
the hex SHA-256 of that body, and the signature check of that checksum with
the artifact's signature succeeds, then `DownloadPlugin` returns the temp path
with a nil error, and the file at that path exists and holds exactly the body,
so its hash equals the artifact's checksum. -/
theorem C13_download_success (c : Client) (H : HTTP) (J : JSON PluginVersion) (S : Host)
    (verify : String → String → Option GoError) (w : World) (pluginID version : String)
    (artifact : Artifact) (redirect : Response) (tmpPath : String) (dlResp : Response)
    (h : c.Served H J S w pluginID version artifact redirect tmpPath dlResp)
    (hsum : artifact.Checksum = S.sha256hex dlResp.Body)
    (hsig : verify (S.sha256hex dlResp.Body) artifact.Signature = none) :
    (c.DownloadPlugin H J S verify w pluginID version).err = none ∧
    (c.DownloadPlugin H J S verify w pluginID version).value = tmpPath ∧
    (c.DownloadPlugin H J S verify w pluginID version).world.readFile tmpPath
      = some dlResp.Body ∧
    (∀ content, (c.DownloadPlugin H J S verify w pluginID version).world.readFile tmpPath
      = some content → S.sha256hex content = artifact.Checksum) := by
  have hd : c.DownloadPlugin H J S verify w pluginID version =
      ⟨c.streamedWorld H J S w pluginID version tmpPath dlResp, tmpPath, none⟩ := by
    rw [downloadPlugin_of_streamed (streamed_of_served h) verify, if_neg (by simp [hsum]), hsig]
  have hr : (c.streamedWorld H J S w pluginID version tmpPath dlResp).readFile tmpPath
      = some dlResp.Body := readFile_create_append _ _ _ _
  rw [hd]
  refine ⟨rfl, rfl, hr, fun content hc => ?_⟩
  simp only [hr, Option.some.injEq] at hc
  rw [← hc, hsum]

/-- Witness for C13 (scenario A): version 1.0.0 of `demo` has one artifact for
`linux_amd64` with checksum `c1` and the valid signature `sig(c1)`; on
linux/amd64 the download returns the temp path, whose file holds the bytes. -/
theorem C13_download_success_witness :
    (demoDownload "c1" "sig(c1)" (demoResponse 200 "plugin-bytes")
      (VerifyArtifactSignature demoVerifies)).err = none ∧
    (demoDownload "c1" "sig(c1)" (demoResponse 200 "plugin-bytes")
      (VerifyArtifactSignature demoVerifies)).value = demoTemp ∧
    (demoDownload "c1" "sig(c1)" (demoResponse 200 "plugin-bytes")
      (VerifyArtifactSignature demoVerifies)).world.readFile demoTemp = some "plugin-bytes" :=
  have h := C13_download_success demoClient
    (demoRegistry [("linux_amd64", demoArtifact "c1" "sig(c1)")] demoLocation
      (demoResponse 200 "plugin-bytes"))
    (demoVersionJSON [("linux_amd64", demoArtifact "c1" "sig(c1)")])
    demoHost (VerifyArtifactSignature demoVerifies) World.init "demo" "1.0.0"
    (demoArtifact "c1" "sig(c1)") demoRedirect demoTemp (demoResponse 200 "plugin-bytes")
    ⟨⟨demoVersion [("linux_amd64", demoArtifact "c1" "sig(c1)")], rfl, rfl⟩,
      rfl, rfl, Or.inl rfl, rfl, rfl, rfl, rfl, rfl, rfl⟩
    rfl rfl
  ⟨h.1, h.2.1, h.2.2.1⟩

/-! ## downloads.go: `DownloadPlugin`, cleanup -/

/-- An error of `DownloadPlugin` comes with the empty path. -/
theorem downloadPlugin_error_path (c : Client) (H : HTTP) (J : JSON PluginVersion) (S : Host)
    (verify : String → String → Option GoError) (w : World) (pluginID version : String) :
    (c.DownloadPlugin H J S verify w pluginID version).err ≠ none →
    (c.DownloadPlugin H J S verify w pluginID version).value = "" := by
  simp only [Client.DownloadPlugin]
  repeat' split
  all_goals simp_all

/-- Once the temp file is created, an error of `DownloadPlugin` leaves the
initial files without the temp path. -/
theorem downloadPlugin_error_files {c : Client} {H : HTTP} {J : JSON PluginVersion} {S : Host}
    {w : World} {pluginID version : String} {artifact : Artifact} {tmpPath : String}
    (h : c.Created H J S w pluginID version artifact tmpPath)
    (verify : String → String → Option GoError) :
    (c.DownloadPlugin H J S verify w pluginID version).err ≠ none →
    (c.DownloadPlugin H J S verify w pluginID version).world.files
      = w.files.filter (fun f => f.1 != tmpPath) := by
  obtain ⟨v, hv, hmap⟩ := h.fetched
  have h1 := h.resolved
  have h2 := h.temp
  have hf := located_files c H J S w pluginID version
  simp only [Client.located, tempPattern] at h1 h2 hf
  simp only [Client.DownloadPlugin, hv, hmap, h1, h2]
  repeat' split
  all_goals first
    | (intro hne; exact absurd rfl hne)
    | (intro _; rw [(files_create_append_remove _ _ _ _).1, hf])
    | (intro _; rw [(files_create_append_remove _ _ "" _).2.1, hf])
    | (intro _; rw [(files_create_append_remove _ _ "" ⟨"", "", [], none⟩).2.2, hf])

/-- Claim C14 (`Client.DownloadPlugin`, temp-file cleanup).  On every path a
non-nil error comes with the empty path, so a non-empty path comes only with a
nil error.  On every path that returns an error, the files left are the
initial files, without the temp path if `os.CreateTemp` had returned one.  In
particular, once the temp file has been created (`Created`), every error
return (request construction, transport, status other than 200, copy error,
checksum mismatch, signature failure) leaves no file at the temp path. -/
theorem C14_temp_file_cleanup (c : Client) (H : HTTP) (J : JSON PluginVersion) (S : Host)
    (verify : String → String → Option GoError) (w : World) (pluginID version : String) :
    ((c.DownloadPlugin H J S verify w pluginID version).err ≠ none →
      (c.DownloadPlugin H J S verify w pluginID version).value = "") ∧
    ((c.DownloadPlugin H J S verify w pluginID version).value ≠ "" →
      (c.DownloadPlugin H J S verify w pluginID version).err = none) ∧
    ((c.DownloadPlugin H J S verify w pluginID version).err ≠ none →
      (c.DownloadPlugin H J S verify w pluginID version).world.files = w.files ∨
      ∃ p, S.CreateTemp (tempPattern pluginID version) = .ok p ∧
        (c.DownloadPlugin H J S verify w pluginID version).world.files
          = w.files.filter (fun f => f.1 != p)) ∧
    (∀ artifact tmpPath, c.Created H J S w pluginID version artifact tmpPath →
      (c.DownloadPlugin H J S verify w pluginID version).err ≠ none →
      (c.DownloadPlugin H J S verify w pluginID version).value = "" ∧
      (c.DownloadPlugin H J S verify w pluginID version).world.readFile tmpPath = none ∧
      (c.DownloadPlugin H J S verify w pluginID version).world.files
        = w.files.filter (fun f => f.1 != tmpPath)) := by
  have hpath := downloadPlugin_error_path c H J S verify w pluginID version
  have hcreated : ∀ artifact tmpPath, c.Created H J S w pluginID version artifact tmpPath →
      (c.DownloadPlugin H J S verify w pluginID version).err ≠ none →
      (c.DownloadPlugin H J S verify w pluginID version).value = "" ∧
      (c.DownloadPlugin H J S verify w pluginID version).world.readFile tmpPath = none ∧
      (c.DownloadPlugin H J S verify w pluginID version).world.files
        = w.files.filter (fun f => f.1 != tmpPath) := by
    intro artifact tmpPath hc herr
    have hfiles := downloadPlugin_error_files hc verify herr
    refine ⟨hpath herr, ?_, hfiles⟩
    simp only [World.readFile, hfiles, lookup_filter_ne]
  refine ⟨hpath, fun hv => ?_, fun herr => ?_, hcreated⟩
  · by_contra hne
    exact hv (hpath hne)
  · cases hret : (c.GetVersion H J w pluginID version).ret with
    | error e =>
      left
      simp only [Client.DownloadPlugin, hret, (getVersion_world c H J w pluginID version).1]
    | ok v =>
      cases hmap : mapIndex v.Artifacts (CurrentPlatform S) with
      | none =>
        left
        simp only [Client.DownloadPlugin, hret, hmap,
          (getVersion_world c H J w pluginID version).1]
      | some artifact =>
        cases hloc : (c.located H J S w pluginID version).err with
        | some e =>
          left
          have hf := located_files c H J S w pluginID version
          simp only [Client.located] at hloc hf
          simp only [Client.DownloadPlugin, hret, hmap, hloc, hf]
        | none =>
          cases htemp : S.CreateTemp (tempPattern pluginID version) with
          | error e =>
            left
            have hf := located_files c H J S w pluginID version
            have htemp2 := htemp
            simp only [Client.located, tempPattern] at hloc hf htemp2
            simp only [Client.DownloadPlugin, hret, hmap, hloc, htemp2, hf]
          | ok p =>
            right
            exact ⟨p, rfl, (hcreated artifact p ⟨⟨v, hret, hmap⟩, hloc, htemp⟩ herr).2.2⟩

/-- Witness for C14: the artifact location answers 500 after the temp file was
created; the call fails with no path and the temp file is gone. -/
theorem C14_temp_file_cleanup_witness :
    (demoDownload "c1" "sig(c1)" (demoResponse 500 "") demoVerify).value = "" ∧
    (demoDownload "c1" "sig(c1)" (demoResponse 500 "") demoVerify).world.readFile demoTemp
      = none ∧
    (demoDownload "c1" "sig(c1)" (demoResponse 500 "") demoVerify).world.files = [] :=
  (C14_temp_file_cleanup demoClient
    (demoRegistry [("linux_amd64", demoArtifact "c1" "sig(c1)")] demoLocation
      (demoResponse 500 ""))
    (demoVersionJSON [("linux_amd64", demoArtifact "c1" "sig(c1)")])
    demoHost demoVerify World.init "demo" "1.0.0").2.2.2
    (demoArtifact "c1" "sig(c1)") demoTemp
    ⟨⟨demoVersion [("linux_amd64", demoArtifact "c1" "sig(c1)")], rfl, rfl⟩, rfl, rfl⟩
    (by decide)

/-! ## downloads.go: `DownloadPlugin`, signature -/

/-- Claim C15 (`Client.DownloadPlugin`, signature failure).  Once the body is
streamed and its hex SHA-256 equals the artifact's checksum: (1) for every
verifier, if the check of (checksum string, signature) returns an error `e`,
`DownloadPlugin` returns `e` wrapped with "signature verification failed", so
`errors.Is` against any sentinel gives on the returned error what it gives on
`e`; the path is empty and the temp file is removed; (2) the verifier is
consulted only at the checksum string and the artifact's signature, never at
the body; (3) with `VerifyArtifactSignature` as the spec describes it, an empty
signature gives `ErrUnsignedArtifact` and a signature that does not verify
gives `ErrInvalidSignature`, and neither error is the other. -/
theorem C15_signature_failure_propagated (c : Client) (H : HTTP) (J : JSON PluginVersion)
    (S : Host) (w : World) (pluginID version : String) (artifact : Artifact)
    (tmpPath : String) (dlResp : Response)
    (h : c.Streamed H J S w pluginID version artifact tmpPath dlResp)
    (hsum : S.sha256hex dlResp.Body = artifact.Checksum) :
    (∀ (verify : String → String → Option GoError) (e : GoError),
      verify artifact.Checksum artifact.Signature = some e →
      (c.DownloadPlugin H J S verify w pluginID version).err
        = some (.wrap "signature verification failed" e) ∧
      (∀ s, errorsIs (.wrap "signature verification failed" e) s = errorsIs e s) ∧
      (c.DownloadPlugin H J S verify w pluginID version).value = "" ∧
      (c.DownloadPlugin H J S verify w pluginID version).world.readFile tmpPath = none) ∧
    (∀ verify verify2 : String → String → Option GoError,
      verify2 artifact.Checksum artifact.Signature = verify artifact.Checksum artifact.Signature →
      c.DownloadPlugin H J S verify2 w pluginID version
        = c.DownloadPlugin H J S verify w pluginID version) ∧
    (∀ verifies : String → String → Bool, artifact.Signature = "" →
      (c.DownloadPlugin H J S (VerifyArtifactSignature verifies) w pluginID version).err
        = some (.wrap "signature verification failed" (.sentinel .ErrUnsignedArtifact))) ∧
    (∀ verifies : String → String → Bool, artifact.Signature ≠ "" →
      verifies artifact.Checksum artifact.Signature = false →
      (c.DownloadPlugin H J S (VerifyArtifactSignature verifies) w pluginID version).err
        = some (.wrap "signature verification failed" (.sentinel .ErrInvalidSignature))) ∧
    errorsIs (.wrap "signature verification failed" (.sentinel .ErrUnsignedArtifact))
      .ErrUnsignedArtifact = true ∧
    errorsIs (.wrap "signature verification failed" (.sentinel .ErrUnsignedArtifact))
      .ErrInvalidSignature = false ∧
    errorsIs (.wrap "signature verification failed" (.sentinel .ErrInvalidSignature))
      .ErrInvalidSignature = true ∧
    errorsIs (.wrap "signature verification failed" (.sentinel .ErrInvalidSignature))
      .ErrUnsignedArtifact = false := by
  have hd : ∀ vf : String → String → Option GoError,
      c.DownloadPlugin H J S vf w pluginID version =
        match vf artifact.Checksum artifact.Signature with
        | some err =>
          ⟨(c.streamedWorld H J S w pluginID version tmpPath dlResp).removeFile tmpPath, "",
            some (.wrap "signature verification failed" err)⟩
        | none => ⟨c.streamedWorld H J S w pluginID version tmpPath dlResp, tmpPath, none⟩ := by
    intro vf
    rw [downloadPlugin_of_streamed h vf, if_neg (by simp [hsum]), hsum]
  refine ⟨fun verify e he => ?_, fun verify verify2 heq => ?_, fun verifies hs => ?_,
    fun verifies hs hv => ?_, rfl, rfl, rfl, rfl⟩
  · rw [hd verify, he]
    exact ⟨rfl, fun s => rfl, rfl, readFile_removeFile _ _⟩
  · rw [hd verify, hd verify2, heq]
  · rw [hd]
    simp [VerifyArtifactSignature, hs]
  · rw [hd]
    simp [VerifyArtifactSignature, hs, hv]

/-- Witness for C15: a valid checksum with an empty signature gives
`ErrUnsignedArtifact`, and with the signature of another checksum gives
`ErrInvalidSignature`. -/
theorem C15_signature_failure_propagated_witness :
    (demoDownload "c1" "" (demoResponse 200 "plugin-bytes")
        (VerifyArtifactSignature demoVerifies)).err
      = some (.wrap "signature verification failed" (.sentinel .ErrUnsignedArtifact)) ∧
    (demoDownload "c1" "sig(c2)" (demoResponse 200 "plugin-bytes")
        (VerifyArtifactSignature demoVerifies)).err
      = some (.wrap "signature verification failed" (.sentinel .ErrInvalidSignature)) :=
  ⟨(C15_signature_failure_propagated demoClient
      (demoRegistry [("linux_amd64", demoArtifact "c1" "")] demoLocation
        (demoResponse 200 "plugin-bytes"))
      (demoVersionJSON [("linux_amd64", demoArtifact "c1" "")])
      demoHost World.init "demo" "1.0.0" (demoArtifact "c1" "") demoTemp
      (demoResponse 200 "plugin-bytes")
      (@streamed_of_served _ _ _ _ _ _ _ _ demoRedirect _ _
        ⟨⟨demoVersion [("linux_amd64", demoArtifact "c1" "")], rfl, rfl⟩,
          rfl, rfl, Or.inl rfl, rfl, rfl, rfl, rfl, rfl, rfl⟩)
      rfl).2.2.1 demoVerifies rfl,
   (C15_signature_failure_propagated demoClient
      (demoRegistry [("linux_amd64", demoArtifact "c1" "sig(c2)")] demoLocation
        (demoResponse 200 "plugin-bytes"))
      (demoVersionJSON [("linux_amd64", demoArtifact "c1" "sig(c2)")])
      demoHost World.init "demo" "1.0.0" (demoArtifact "c1" "sig(c2)") demoTemp
      (demoResponse 200 "plugin-bytes")
      (@streamed_of_served _ _ _ _ _ _ _ _ demoRedirect _ _
        ⟨⟨demoVersion [("linux_amd64", demoArtifact "c1" "sig(c2)")], rfl, rfl⟩,
          rfl, rfl, Or.inl rfl, rfl, rfl, rfl, rfl, rfl, rfl⟩)
      rfl).2.2.2.1 demoVerifies (by decide) rfl⟩

/-! ## downloads.go: `DownloadPlugin`, empty checksum or signature -/

/-- When `GetDownloadURL` returns no error it has sent exactly its request. -/
theorem getDownloadURL_sent (c : Client) (H : HTTP) (w : World)
    (pluginID version arch : String) :
    (c.GetDownloadURL H w pluginID version arch).err = none →
    (c.GetDownloadURL H w pluginID version arch).world.sent = w.sent ++ [⟨"GET",
      c.baseURL ++ ("/v1/plugins/" ++ pluginID ++ "/download/" ++ version ++ "/" ++ arch),
      [], none⟩] := by
  simp only [Client.GetDownloadURL]
  repeat' split
  all_goals simp_all [World.send]

/-- After the streaming step `DownloadPlugin` has sent three requests: for the
version metadata, for the download URL, and for the artifact bytes. -/
theorem downloadPlugin_sent_of_streamed {c : Client} {H : HTTP} {J : JSON PluginVersion}
    {S : Host} {w : World} {pluginID version : String} {artifact : Artifact}
    {tmpPath : String} {dlResp : Response}
    (h : c.Streamed H J S w pluginID version artifact tmpPath dlResp)
    (verify : String → String → Option GoError) :
    (c.DownloadPlugin H J S verify w pluginID version).world.sent = w.sent ++
      [c.requestOf "GET" ("/v1/plugins/" ++ pluginID ++ "/versions/" ++ version) none,
       ⟨"GET", c.baseURL ++ ("/v1/plugins/" ++ pluginID ++ "/download/" ++ version ++ "/" ++
          CurrentPlatform S), [], none⟩,
       c.artifactRequest H J S w pluginID version] := by
  obtain ⟨v, hv, _⟩ := h.created.fetched
  have h1 := (getVersion_world c H J w pluginID version).2 v hv
  have h2 := getDownloadURL_sent c H (c.GetVersion H J w pluginID version).world pluginID
    version (CurrentPlatform S) h.created.resolved
  have h3 : (c.streamedWorld H J S w pluginID version tmpPath dlResp).sent = w.sent ++
      [c.requestOf "GET" ("/v1/plugins/" ++ pluginID ++ "/versions/" ++ version) none,
       ⟨"GET", c.baseURL ++ ("/v1/plugins/" ++ pluginID ++ "/download/" ++ version ++ "/" ++
          CurrentPlatform S), [], none⟩,
       c.artifactRequest H J S w pluginID version] := by
    simp only [Client.streamedWorld, World.appendFile, World.send, World.createFile,
      Client.located, h2, h1, List.append_assoc, List.singleton_append, List.cons_append,
      List.nil_append]
  rw [downloadPlugin_of_streamed h verify]
  repeat' split
  all_goals exact h3

/-- Claim C17, counterexample.  On the sample registry the artifact for
`linux_amd64` has an empty checksum (and, in the second call, the checksum `c1`
with an empty signature).  `DownloadPlugin` fails, but only after it has sent
the download-URL request and the artifact request and streamed the bytes: the
errors are `ErrChecksumMismatch` and `ErrUnsignedArtifact`, raised at steps 6
and 7. -/
theorem C17_empty_fields_counterexample :
    ((demoDownload "" "sig(c1)" (demoResponse 200 "plugin-bytes")
        (VerifyArtifactSignature demoVerifies)).world.sent
      = [⟨"GET", "https://api.omniview.dev/v1/plugins/demo/versions/1.0.0", [], none⟩,
         ⟨"GET", "https://api.omniview.dev/v1/plugins/demo/download/1.0.0/linux_amd64", [],
           none⟩,
         ⟨"GET", "https://cdn.omniview.dev/demo/1.0.0/demo-linux_amd64.tar.gz", [], none⟩] ∧
      (demoDownload "" "sig(c1)" (demoResponse 200 "plugin-bytes")
        (VerifyArtifactSignature demoVerifies)).err
      = some (.wrap "expected , got c1" (.sentinel .ErrChecksumMismatch))) ∧
    ((demoDownload "c1" "" (demoResponse 200 "plugin-bytes")
        (VerifyArtifactSignature demoVerifies)).world.sent
      = [⟨"GET", "https://api.omniview.dev/v1/plugins/demo/versions/1.0.0", [], none⟩,
         ⟨"GET", "https://api.omniview.dev/v1/plugins/demo/download/1.0.0/linux_amd64", [],
           none⟩,
         ⟨"GET", "https://cdn.omniview.dev/demo/1.0.0/demo-linux_amd64.tar.gz", [], none⟩] ∧
      (demoDownload "c1" "" (demoResponse 200 "plugin-bytes")
        (VerifyArtifactSignature demoVerifies)).err
      = some (.wrap "signature verification failed" (.sentinel .ErrUnsignedArtifact))) := by
  refine ⟨⟨?_, ?_⟩, ⟨?_, ?_⟩⟩ <;> rfl

/-- Claim C17, as amended (`Client.DownloadPlugin`).  An artifact entry for the
current platform with an empty checksum or an empty signature is never
accepted, but it is rejected only by the checks after the download.  Given
that the hex SHA-256 of a body is never empty and that
`VerifyArtifactSignature` is as the spec describes it: (1) whenever the fetched
version metadata has such an artifact, `DownloadPlugin` returns an error and
the empty path; (2) when the body has been streamed, the version request, the
download-URL request and the artifact request have all been sent, the temp
file is removed, an empty checksum gives `ErrChecksumMismatch`, and an empty
signature under a matching checksum gives `ErrUnsignedArtifact`. -/
theorem C17_empty_fields_rejected_after_download (c : Client) (H : HTTP)
    (J : JSON PluginVersion) (S : Host) (verifies : String → String → Bool) (w : World)
    (pluginID version : String) (artifact : Artifact)
    (hempty : artifact.Checksum = "" ∨ artifact.Signature = "")
    (hdigest : ∀ b, S.sha256hex b ≠ "") :
    (∀ v, (c.GetVersion H J w pluginID version).ret = .ok v →
      mapIndex v.Artifacts (CurrentPlatform S) = some artifact →
      (c.DownloadPlugin H J S (VerifyArtifactSignature verifies) w pluginID version).err
        ≠ none ∧
      (c.DownloadPlugin H J S (VerifyArtifactSignature verifies) w pluginID version).value
        = "") ∧
    (∀ tmpPath dlResp, c.Streamed H J S w pluginID version artifact tmpPath dlResp →
      (c.DownloadPlugin H J S (VerifyArtifactSignature verifies) w pluginID version).world.sent
        = w.sent ++
          [c.requestOf "GET" ("/v1/plugins/" ++ pluginID ++ "/versions/" ++ version) none,
           ⟨"GET", c.baseURL ++ ("/v1/plugins/" ++ pluginID ++ "/download/" ++ version ++ "/" ++
              CurrentPlatform S), [], none⟩,
           c.artifactRequest H J S w pluginID version] ∧
      (c.DownloadPlugin H J S (VerifyArtifactSignature verifies) w pluginID
        version).world.readFile tmpPath = none ∧
      (artifact.Checksum = "" →
        ∃ e, (c.DownloadPlugin H J S (VerifyArtifactSignature verifies) w pluginID version).err
          = some e ∧ errorsIs e .ErrChecksumMismatch = true) ∧
      (S.sha256hex dlResp.Body = artifact.Checksum → artifact.Signature = "" →
        (c.DownloadPlugin H J S (VerifyArtifactSignature verifies) w pluginID version).err
          = some (.wrap "signature verification failed" (.sentinel .ErrUnsignedArtifact)))) := by
  have hrej : ∀ v, (c.GetVersion H J w pluginID version).ret = .ok v →
      mapIndex v.Artifacts (CurrentPlatform S) = some artifact →
      (c.DownloadPlugin H J S (VerifyArtifactSignature verifies) w pluginID version).err
        ≠ none := by
    intro v hv hmap
    simp only [Client.DownloadPlugin, hv, hmap]
    repeat' split
    all_goals try simp
    rename_i hsum _ hsig
    rcases hempty with hc | hs
    · exact absurd (by simpa [hc] using hsum) (hdigest _)
    · simp [VerifyArtifactSignature, hs] at hsig
  refine ⟨fun v hv hmap => ⟨hrej v hv hmap, downloadPlugin_error_path _ _ _ _ _ _ _ _
    (hrej v hv hmap)⟩, fun tmpPath dlResp h => ?_⟩
  obtain ⟨v, hv, hmap⟩ := h.created.fetched
  have herr := hrej v hv hmap
  have hfiles := downloadPlugin_error_files h.created (VerifyArtifactSignature verifies) herr
  refine ⟨downloadPlugin_sent_of_streamed h _, ?_, fun hc => ?_, fun hsum hs => ?_⟩
  · simp only [World.readFile, hfiles, lookup_filter_ne]
  · have hne : S.sha256hex dlResp.Body ≠ artifact.Checksum := by
      rw [hc]; exact hdigest _
    rw [downloadPlugin_of_streamed h _, if_pos hne]
    exact ⟨_, rfl, rfl⟩
  · rw [downloadPlugin_of_streamed h _, if_neg (by simp [hsum])]
    simp [VerifyArtifactSignature, hs]

/-- Witness for the amended C17: the sample artifact with an empty checksum is
rejected with an empty path. -/
theorem C17_empty_fields_rejected_after_download_witness :
    (demoDownload "" "sig(c1)" (demoResponse 200 "plugin-bytes")
      (VerifyArtifactSignature demoVerifies)).err ≠ none ∧
    (demoDownload "" "sig(c1)" (demoResponse 200 "plugin-bytes")
      (VerifyArtifactSignature demoVerifies)).value = "" :=
  (C17_empty_fields_rejected_after_download demoClient
    (demoRegistry [("linux_amd64", demoArtifact "" "sig(c1)")] demoLocation
      (demoResponse 200 "plugin-bytes"))
    (demoVersionJSON [("linux_amd64", demoArtifact "" "sig(c1)")])
    demoHost demoVerifies World.init "demo" "1.0.0" (demoArtifact "" "sig(c1)")
    (Or.inl rfl) (fun _ => (by decide : "c1" ≠ ""))).1
    (demoVersion [("linux_amd64", demoArtifact "" "sig(c1)")]) rfl rfl

/-! ## types_options.go: `buildQuery` -/

set_option maxHeartbeats 4000000

/-- The method `buildQuery` on a non-nil receiver encodes `values`. -/
theorem buildQuery_some (o : ListOptions) :
    ListOptions.buildQuery (some o) =
      if o.values.Encode = "" then "" else "?" ++ o.values.Encode := rfl

/-- Sorting the filled `url.Values` by key gives `params`. -/
theorem values_sorted (o : ListOptions) :
    o.values.insertionSort (fun a b => stringLE a.1 b.1 = true) = o.params := by
  simp only [ListOptions.values, ListOptions.params]
  by_cases h1 : o.Page > 0 <;> by_cases h2 : o.PerPage > 0 <;>
  by_cases h3 : o.OrderField = "" <;> by_cases h4 : o.OrderDirection = "" <;>
  by_cases h5 : o.Search = "" <;> by_cases h6 : o.Category = "" <;>
  by_cases h7 : o.Featured = true <;>
  simp only [h1, h2, h3, h4, h5, h6, h7, if_true, if_false, ne_eq, not_true_eq_false,
    not_false_eq_true, List.nil_append, List.append_nil, List.cons_append,
    Bool.false_eq_true] <;>
  rfl

/-- The accumulator of `String.intercalate` only grows. -/
theorem intercalate_go_length (s acc : String) (l : List String) :
    acc.length ≤ (String.intercalate.go acc s l).length := by
  induction l generalizing acc with
  | nil => simp [String.intercalate.go]
  | cons a as ih =>
    simp only [String.intercalate.go]
    refine le_trans ?_ (ih _)
    simp only [String.length_append]
    omega

/-- Joining a list that starts with a non-empty string gives a non-empty
string. -/
theorem intercalate_ne_empty (s x : String) (xs : List String) (hx : 0 < x.length) :
    s.intercalate (x :: xs) ≠ "" := by
  intro h
  have h1 := intercalate_go_length s x xs
  have h2 : (s.intercalate (x :: xs)).length = 0 := by rw [h]; rfl
  simp only [String.intercalate] at h2
  omega

/-- The keys of `params` need no escaping. -/
theorem params_keys_plain (o : ListOptions) :
    ∀ kv ∈ o.params, QueryEscape kv.1 = kv.1 := by
  intro kv hkv
  simp only [ListOptions.params, List.mem_append] at hkv
  rcases hkv with (((((h | h) | h) | h) | h) | h) | h <;>
    (split at h <;> simp only [List.mem_singleton, List.not_mem_nil] at h) <;>
    (subst h; rfl)

/-- Membership in the list an optional parameter contributes. -/
theorem mem_optional {α : Type} (c : Prop) [Decidable c] (x y : α) :
    x ∈ (if c then [y] else []) ↔ c ∧ x = y := by
  by_cases h : c <;> simp [h]

/-- An optional parameter contributes nothing exactly when it is unset. -/
theorem optional_eq_nil {α : Type} (c : Prop) [Decidable c] (y : α) :
    (if c then [y] else []) = [] ↔ ¬ c := by
  by_cases h : c <;> simp [h]

/-- The keys of an optional parameter are a sublist of its one key. -/
theorem optional_keys_sublist (c : Prop) [Decidable c] (k v : String) :
    ((if c then [(k, v)] else []).map Prod.fst).Sublist [k] := by
  by_cases h : c <;> simp [h]

/-- Claim C19 (`ListOptions.buildQuery`).  For the nil receiver the result is
the empty string.  For a receiver `o`, with `params` the pairs of the set
fields (page when `Page > 0`, per_page when `PerPage > 0`, order_field,
order_direction, search and category when non-empty, featured=true when
`Featured`): the result is the empty string when no field is set, and
otherwise `?` followed by `key=value` for each pair of `params`, with the value
URL-escaped, joined by `&`.  No field is set exactly when `Page <= 0`,
`PerPage <= 0`, all strings are empty and `Featured` is false; the keys of
`params` are pairwise different (each once); and a pair is in `params` exactly
when it is the pair of a set field (no key for an unset field). -/
theorem C19_buildQuery (o : ListOptions) :
    ListOptions.buildQuery none = "" ∧
    (ListOptions.buildQuery (some o) =
      if o.params = [] then ""
      else "?" ++ "&".intercalate (o.params.map fun kv => kv.1 ++ "=" ++ QueryEscape kv.2)) ∧
    (o.params = [] ↔ o.Page ≤ 0 ∧ o.PerPage ≤ 0 ∧ o.OrderField = "" ∧ o.OrderDirection = "" ∧
      o.Search = "" ∧ o.Category = "" ∧ o.Featured = false) ∧
    (o.params.map Prod.fst).Nodup ∧
    (∀ k v, (k, v) ∈ o.params ↔
      (o.Category ≠ "" ∧ k = "category" ∧ v = o.Category) ∨
      (o.Featured = true ∧ k = "featured" ∧ v = "true") ∨
      (o.OrderDirection ≠ "" ∧ k = "order_direction" ∧ v = o.OrderDirection) ∨
      (o.OrderField ≠ "" ∧ k = "order_field" ∧ v = o.OrderField) ∨
      (o.Page > 0 ∧ k = "page" ∧ v = toString o.Page) ∨
      (o.PerPage > 0 ∧ k = "per_page" ∧ v = toString o.PerPage) ∨
      (o.Search ≠ "" ∧ k = "search" ∧ v = o.Search)) := by
  refine ⟨rfl, ?_, ?_, ?_, ?_⟩
  · have hmap : (o.params.map fun kv => QueryEscape kv.1 ++ "=" ++ QueryEscape kv.2)
        = o.params.map fun kv => kv.1 ++ "=" ++ QueryEscape kv.2 := by
      apply List.map_congr_left
      intro kv hkv
      rw [params_keys_plain o kv hkv]
    rw [buildQuery_some]
    simp only [Values.Encode, values_sorted, hmap]
    cases hp : o.params with
    | nil => simp [String.intercalate]
    | cons kv rest =>
      have hne := intercalate_ne_empty "&" (kv.1 ++ "=" ++ QueryEscape kv.2)
        (rest.map fun kv => kv.1 ++ "=" ++ QueryEscape kv.2)
        (by simp only [String.length_append]; have : "=".length = 1 := rfl; omega)
      simp only [List.map_cons, hne, if_false, reduceCtorEq]
  · simp only [ListOptions.params, List.append_eq_nil, optional_eq_nil, ne_eq, not_not,
      gt_iff_lt, not_lt, Bool.not_eq_true]
    exact ⟨fun ⟨⟨⟨⟨⟨⟨h6, h7⟩, h4⟩, h3⟩, h1⟩, h2⟩, h5⟩ => ⟨h1, h2, h3, h4, h5, h6, h7⟩,
      fun ⟨h1, h2, h3, h4, h5, h6, h7⟩ => ⟨⟨⟨⟨⟨⟨h6, h7⟩, h4⟩, h3⟩, h1⟩, h2⟩, h5⟩⟩
  · have hsub : (o.params.map Prod.fst).Sublist
        (["category"] ++ ["featured"] ++ ["order_direction"] ++ ["order_field"] ++ ["page"] ++
          ["per_page"] ++ ["search"]) := by
      simp only [ListOptions.params, List.map_append]
      exact ((((((optional_keys_sublist _ _ _).append (optional_keys_sublist _ _ _)).append
        (optional_keys_sublist _ _ _)).append (optional_keys_sublist _ _ _)).append
        (optional_keys_sublist _ _ _)).append (optional_keys_sublist _ _ _)).append
        (optional_keys_sublist _ _ _)
    exact List.Nodup.sublist hsub (by decide)
  · intro k v
    simp only [ListOptions.params, List.mem_append, mem_optional, Prod.mk.injEq, or_assoc]

/-- Witness for C19: the options of the test `buildQuery_partial`, page 1 and
the search text `hello world`. -/
theorem C19_buildQuery_witness :
    ListOptions.buildQuery (some ⟨1, 0, "", "", "hello world", "", false⟩)
      = "?page=1&search=hello+world" :=
  (C19_buildQuery ⟨1, 0, "", "", "hello world", "", false⟩).2.1

/-! ## downloads.go: `DownloadPlugin`, status of the artifact answer -/

/-- Claim C21 (`Client.DownloadPlugin`, `IsNotFound`).  Once the temp file is
created and the request for the redirect target is built and answered, every
status other than 200 (the sub-400 ones such as 204 or 206 included) makes the
call fail with the `APIError` carrying exactly that status and the message
"download failed", not wrapped; the path is empty and the temp file is removed
(the files are the initial files without it).  So `IsNotFound` is true on the
error of `DownloadPlugin` exactly when that status is 404; in particular a 404
from the artifact host makes it true. -/
theorem C21_download_status_not_200 (c : Client) (H : HTTP) (J : JSON PluginVersion)
    (S : Host) (verify : String → String → Option GoError) (w : World)
    (pluginID version : String) (artifact : Artifact) (tmpPath : String) (dlResp : Response)
    (h : c.Created H J S w pluginID version artifact tmpPath)
    (hbuilt : H.NewRequest "GET" (c.located H J S w pluginID version).value = none)
    (hanswered : H.Do (c.artifactRequest H J S w pluginID version) = .ok dlResp)
    (hstatus : dlResp.StatusCode ≠ 200) :
    (c.DownloadPlugin H J S verify w pluginID version).err
      = some (.api ⟨dlResp.StatusCode, "download failed"⟩) ∧
    (c.DownloadPlugin H J S verify w pluginID version).value = "" ∧
    (c.DownloadPlugin H J S verify w pluginID version).world.readFile tmpPath = none ∧
    (c.DownloadPlugin H J S verify w pluginID version).world.files
      = w.files.filter (fun f => f.1 != tmpPath) ∧
    (IsNotFound (c.DownloadPlugin H J S verify w pluginID version).err = true ↔
      dlResp.StatusCode = 404) ∧
    (dlResp.StatusCode = 404 →
      IsNotFound (c.DownloadPlugin H J S verify w pluginID version).err = true) := by
  obtain ⟨v, hv, hmap⟩ := h.fetched
  have h1 := h.resolved
  have h2 := h.temp
  have h3 := hbuilt
  have h4 := hanswered
  simp only [Client.located, Client.artifactRequest, tempPattern] at h1 h2 h3 h4
  have hd : c.DownloadPlugin H J S verify w pluginID version =
      ⟨((((c.located H J S w pluginID version).world).createFile tmpPath).send
          (c.artifactRequest H J S w pluginID version)).removeFile tmpPath, "",
        some (.api ⟨dlResp.StatusCode, "download failed"⟩)⟩ := by
    simp only [Client.DownloadPlugin, hv, hmap, h1, h2, h3, h4, hstatus, ne_eq,
      not_false_eq_true, if_true, Client.located, Client.artifactRequest]
  have hnf : IsNotFound (some (.api ⟨dlResp.StatusCode, "download failed"⟩)) = true ↔
      dlResp.StatusCode = 404 := by
    simp [IsNotFound, errorsAs]
  rw [hd]
  refine ⟨rfl, rfl, readFile_removeFile _ _, ?_, hnf, hnf.2⟩
  rw [(files_create_append_remove _ _ "" _).2.1, located_files]

/-- Witness for C21: the artifact host answers 404 to the redirect target. -/
theorem C21_download_status_not_200_witness :
    (demoDownload "c1" "sig(c1)" (demoResponse 404 "404 page not found\n") demoVerify).err
      = some (.api ⟨404, "download failed"⟩) ∧
    (demoDownload "c1" "sig(c1)" (demoResponse 404 "404 page not found\n") demoVerify).value
      = "" ∧
    (demoDownload "c1" "sig(c1)" (demoResponse 404 "404 page not found\n")
      demoVerify).world.readFile demoTemp = none ∧
    IsNotFound (demoDownload "c1" "sig(c1)" (demoResponse 404 "404 page not found\n")
      demoVerify).err = true :=
  have h := C21_download_status_not_200 demoClient
    (demoRegistry [("linux_amd64", demoArtifact "c1" "sig(c1)")] demoLocation
      (demoResponse 404 "404 page not found\n"))
    (demoVersionJSON [("linux_amd64", demoArtifact "c1" "sig(c1)")])
    demoHost demoVerify World.init "demo" "1.0.0" (demoArtifact "c1" "sig(c1)") demoTemp
    (demoResponse 404 "404 page not found\n")
    ⟨⟨demoVersion [("linux_amd64", demoArtifact "c1" "sig(c1)")], rfl, rfl⟩, rfl, rfl⟩
    rfl rfl (by decide)
  ⟨h.1, h.2.1, h.2.2.1, h.2.2.2.2.2 rfl⟩

end Registry
